import Mathlib

/-
Verification development for the slot-filling triage dialogue engine of
`api.py` (Patient/Doctor-in-the-loop intake bot).

The engine is embedded shallowly:

* utterances are `List Char` (Python lowercases them with `.lower()`,
  embedded as `lowerText`);
* the per-conversation fact store (`clipboard`, a Python dict from slot
  name to extracted string) is an association list `Clipboard`, which
  preserves Python's dict insertion-order semantics (`setSlot` updates an
  existing key in place, otherwise appends at the end);
* each extraction rule of `get_next_question` is embedded as a small
  function producing the list of (slot, value) writes it performs; the
  rules' regexes are alternations of literal words, embedded as leftmost
  first-alternative matching (`findFirst`), which agrees with Python `re`
  on these patterns; the two non-literal regexes (duration and severity)
  are embedded by dedicated matchers (`durMatchAt`, `sevMatchAt`) whose
  greedy, non-backtracking behaviour coincides with the Python regexes
  because no released character can start the respective continuation;
* question texts never influence control flow (`random.choice` only needs
  the non-empty list), so the question bank records each slot's list of
  candidate questions by its length.
-/

/-- Characters of a string literal, used to write patterns and utterances. -/
def cs (s : String) : List Char := s.data

/-- Python `text.lower()` on the character list. -/
def lowerText (t : List Char) : List Char := t.map Char.toLower

/-- Python regex word character (`\w`): letters, digits, underscore. -/
def isWordChar (c : Char) : Bool := c.isAlphanum || c = '_'

/-- The token `tok` occurs at offset `j` of `s` with `\b` word boundaries on
both sides (string edges count as boundaries). -/
def wholeWordAt (tok s : List Char) (j : Nat) : Bool :=
  List.isPrefixOf tok (s.drop j)
    && (decide (j = 0) || !isWordChar (s.getD (j - 1) ' '))
    && (match (s.drop (j + tok.length)).head? with
        | some c => !isWordChar c
        | none => true)

/-- Python `re.search` truthiness for `\b(tok1|...|tokN)\b` over `s`. -/
def containsWholeWord (toks : List (List Char)) (s : List Char) : Bool :=
  (List.range (s.length + 1)).any (fun j => toks.any (fun t => wholeWordAt t s j))

/-- The closed set of negation tokens of `check_negation`. -/
def negationTokens : List (List Char) :=
  [cs "no", cs "not", cs "dont", cs "without", cs "denies", cs "never"]

/-- Embeds `check_negation(text, index)`: looks at the 20 characters before
`index` (`text[max(0, index - 20):index]`) for a whole-word negation token. -/
def check_negation (text : List Char) (index : Nat) : Bool :=
  containsWholeWord negationTokens ((text.take index).drop (index - 20))

/-- Python `pat in text` substring test. -/
def occursIn (p : List Char) : List Char → Bool
  | [] => decide (p = [])
  | c :: rest => List.isPrefixOf p (c :: rest) || occursIn p rest

/-- Truthiness of `re.search("(p1|...|pN)", t)` for literal alternatives. -/
def hasAnyPat (pats : List (List Char)) (t : List Char) : Bool :=
  pats.any (fun p => occursIn p t)

/-- Leftmost match of an alternation of literal patterns, scanning from
position `i`; at each position the alternatives are tried in order, as
Python `re` does. Returns the position and the matched alternative. -/
def findFirstFrom (pats : List (List Char)) : List Char → Nat → Option (Nat × List Char)
  | [], _ => none
  | c :: rest, i =>
    match pats.find? (fun p => List.isPrefixOf p (c :: rest)) with
    | some p => some (i, p)
    | none => findFirstFrom pats rest (i + 1)

/-- Leftmost match of a literal alternation (Python `re.search`, `.start()`
and `.group(0)`). -/
def findFirst (pats : List (List Char)) (t : List Char) : Option (Nat × List Char) :=
  findFirstFrom pats t 0

/-- Leftmost match for a hand-written single-position matcher `m`. -/
def scanFor (m : List Char → Option (List Char)) : List Char → Nat → Option (Nat × List Char)
  | [], i =>
    match m [] with
    | some s => some (i, s)
    | none => none
  | c :: rest, i =>
    match m (c :: rest) with
    | some s => some (i, s)
    | none => scanFor m rest (i + 1)

/-- Greedy `\d+`-style digit run at the head of `t`. -/
def digitsTake (t : List Char) : List Char := t.takeWhile (fun c => c.isDigit)

/-- Greedy `\s*`-style whitespace run at the head of `t`. -/
def spacesTake (t : List Char) : List Char := t.takeWhile (fun c => c.isWhitespace)

/-- Number alternatives of the duration regex `(\d+|one|two|three|few|several)`. -/
def durNumAlt (t : List Char) : Option (List Char) :=
  let ds := digitsTake t
  if ds = [] then
    ([cs "one", cs "two", cs "three", cs "few", cs "several"]).find?
      (fun p => List.isPrefixOf p t)
  else some ds

/-- Time-unit alternatives of the duration regex `(day|week|month|hour|min)`. -/
def durUnits : List (List Char) :=
  [cs "day", cs "week", cs "month", cs "hour", cs "min"]

/-- Single-position match of the duration regex
`(\d+|one|two|three|few|several)\s*(day|week|month|hour|min)`. Backtracking
cannot help the Python engine here (every character released by `\d+` or
`\s*` is a digit or whitespace and so cannot start a time unit), so the
greedy reading is exact. Returns `group(0)`. -/
def durMatchAt (t : List Char) : Option (List Char) :=
  match durNumAlt t with
  | some n =>
    let r1 := t.drop n.length
    let ws := spacesTake r1
    let r2 := r1.drop ws.length
    match durUnits.find? (fun p => List.isPrefixOf p r2) with
    | some u => some (n ++ ws ++ u)
    | none => none
  | none => none

/-- Word alternatives of `SEVERITY_PATTERN`. -/
def sevWordAlts : List (List Char) :=
  [cs "mild", cs "moderate", cs "severe", cs "sharp", cs "dull",
   cs "excruciating", cs "bad"]

/-- Second alternative of `SEVERITY_PATTERN`: `(\d+\s*/\s*10)`. -/
def sevScoreAlt (t : List Char) : Option (List Char) :=
  let ds := digitsTake t
  if ds = [] then none
  else
    let r1 := t.drop ds.length
    let ws1 := spacesTake r1
    let r2 := r1.drop ws1.length
    match r2 with
    | '/' :: r3 =>
      let ws2 := spacesTake r3
      let r4 := r3.drop ws2.length
      if List.isPrefixOf (cs "10") r4 then some (ds ++ ws1 ++ ['/'] ++ ws2 ++ cs "10")
      else none
    | _ => none

/-- Third alternative of `SEVERITY_PATTERN`: `(level|score|pain)\s+(\d+)`. -/
def sevLevelAlt (t : List Char) : Option (List Char) :=
  match ([cs "level", cs "score", cs "pain"]).find? (fun p => List.isPrefixOf p t) with
  | some w =>
    let r1 := t.drop w.length
    let ws := spacesTake r1
    if ws = [] then none
    else
      let r2 := r1.drop ws.length
      let ds := digitsTake r2
      if ds = [] then none else some (w ++ ws ++ ds)
  | none => none

/-- Single-position match of `SEVERITY_PATTERN` (the configurable severity
regex), alternatives tried in the regex's order. Returns `group(0)`. -/
def sevMatchAt (t : List Char) : Option (List Char) :=
  match sevWordAlts.find? (fun p => List.isPrefixOf p t) with
  | some w => some w
  | none =>
    match sevScoreAlt t with
    | some m => some m
    | none => sevLevelAlt t

/-- The session clipboard: a Python dict from slot name to extracted value,
embedded as an insertion-ordered association list. -/
abbrev Clipboard : Type := List (String × String)

/-- Python `clipboard.get(k)`. -/
def getSlot (cb : Clipboard) (k : String) : Option String :=
  match cb with
  | [] => none
  | p :: rest => if p.1 = k then some p.2 else getSlot rest k

/-- Python `clipboard[k] = v`: update in place when the key exists (keeping
the dict's insertion order), otherwise append. -/
def setSlot (cb : Clipboard) (k v : String) : Clipboard :=
  if (getSlot cb k).isSome then
    cb.map (fun p => if p.1 = k then (k, v) else p)
  else cb ++ [(k, v)]

/-- Perform the listed (slot, value) writes in order. -/
def applyWrites (ws : List (String × String)) (cb : Clipboard) : Clipboard :=
  match ws with
  | [] => cb
  | w :: rest => applyWrites rest (setSlot cb w.1 w.2)

/-- Value of the last write to key `k` in the write list, if any. -/
def lastVal (ws : List (String × String)) (k : String) : Option String :=
  match ws with
  | [] => none
  | w :: rest =>
    match lastVal rest k with
    | some v => some v
    | none => if w.1 = k then some w.2 else none

/-- Entry-wise normal form of running a write list over a clipboard entry. -/
def updAll (ws : List (String × String)) (p : String × String) : String × String :=
  match lastVal ws p.1 with
  | some v => (p.1, v)
  | none => p

/-- The `"no "` marker prepended to a matched span when the match is negated. -/
def negMark (t : List Char) (i : Nat) : String :=
  if check_negation t i then "no " else ""

/-- One plain extraction rule of the cascade:
`match = re.search(pats, t); if match: cb[slot] = prefix + match.group(0)`. -/
def reWrite (slot : String) (pats : List (List Char)) (t : List Char) :
    List (String × String) :=
  match findFirst pats t with
  | some (i, m) => [(slot, negMark t i ++ String.mk m)]
  | none => []

/-- An extraction rule that additionally raises `URGENCY_OVERRIDE` to `lvl`
when `extra` holds of the whole text and the match is not negated. -/
def reWriteU (slot : String) (pats : List (List Char)) (extra : List Char → Bool)
    (lvl : String) (t : List Char) : List (String × String) :=
  match findFirst pats t with
  | some (i, m) =>
    (slot, negMark t i ++ String.mk m) ::
      (if extra t && !check_negation t i then [("URGENCY_OVERRIDE", lvl)] else [])
  | none => []

/-- Cross-cutting duration extraction (stored verbatim, no negation marker). -/
def durationWrite (t : List Char) : List (String × String) :=
  match scanFor durMatchAt t 0 with
  | some (_, s) => [("duration", String.mk s)]
  | none => []

/-- Cross-cutting severity extraction via `SEVERITY_PATTERN`. -/
def severityWrite (t : List Char) : List (String × String) :=
  match scanFor sevMatchAt t 0 with
  | some (_, s) => [("severity", String.mk s)]
  | none => []

/-- Tokens of the yes/no context resolver's negation test `\b(no|nah|not|nope)\b`. -/
def noTokens : List (List Char) := [cs "no", cs "nah", cs "not", cs "nope"]

/-- Tokens of the yes/no context resolver's affirmation test `\b(yes|yeah|yep|sure)\b`. -/
def yesTokens : List (List Char) := [cs "yes", cs "yeah", cs "yep", cs "sure"]

/-- The context-awareness ("YES/NO") handler at the top of
`get_next_question`: when a slot was asked last turn, a negation maps
`severity`/`triggers`/`sensation`/`spread` to canned values and any other
slot to the literal (uncased) utterance; an affirmation stores the literal
utterance. -/
def contextWrites (lastSlot : Option String) (userText : List Char) :
    List (String × String) :=
  match lastSlot with
  | none => []
  | some slot =>
    let tl := lowerText userText
    if containsWholeWord noTokens tl then
      if slot = "severity" then [("severity", "mild symptoms")]
      else if slot = "triggers" then [("triggers", "no known triggers")]
      else if slot = "sensation" then [("sensation", "no pain or burning")]
      else if slot = "spread" then [("spread", "no spread")]
      else [(slot, String.mk userText)]
    else if containsWholeWord yesTokens tl then [(slot, String.mk userText)]
    else []

/-- GASTROINTESTINAL extraction cascade of `get_next_question`. -/
def gastroWrites (t : List Char) : List (String × String) :=
  reWrite "vomiting" [cs "vomit", cs "nausea", cs "puke", cs "throw up",
    cs "queasy", cs "dry heave"] t
  ++ reWrite "bowel" [cs "diarrhea", cs "constipation", cs "poop", cs "stool",
    cs "loose", cs "runny"] t
  ++ reWrite "bloating" [cs "bloat", cs "gas", cs "fart", cs "fullness",
    cs "air", cs "burp"] t
  ++ reWrite "triggers" [cs "ate", cs "food", cs "meal", cs "restaurant",
    cs "spicy", cs "oily", cs "sushi", cs "chicken"] t
  ++ reWriteU "stool_color" [cs "blood", cs "red", cs "black", cs "tar",
    cs "dark stool", cs "coffee"] (fun _ => true) "CRITICAL" t
  ++ reWrite "hydration" [cs "water", cs "drink", cs "thirsty", cs "dry mouth",
    cs "pee", cs "urine"] t

/-- Sputum-rule pattern of the RESPIRATORY cascade. -/
def sputumPats : List (List Char) :=
  [cs "mucus", cs "phlegm", cs "sputum", cs "spit", cs "green", cs "yellow",
   cs "clear", cs "blood", cs "red", cs "pink"]

/-- Hemoptysis urgency pattern `(blood|red|pink)`. -/
def bloodPats : List (List Char) := [cs "blood", cs "red", cs "pink"]

/-- RESPIRATORY extraction cascade of `get_next_question`. -/
def respWrites (t : List Char) : List (String × String) :=
  reWrite "onset" [cs "sudden", cs "slow", cs "gradual", cs "rest", cs "walk",
    cs "run", cs "exercise", cs "exert"] t
  ++ reWrite "sounds" [cs "wheeze", cs "whistle", cs "gasp", cs "squeak",
    cs "noisy", cs "stridor"] t
  ++ reWrite "type" [cs "dry", cs "wet", cs "hack", cs "tickle",
    cs "productive", cs "bark"] t
  ++ reWriteU "sputum" sputumPats (hasAnyPat bloodPats) "CRITICAL" t
  ++ reWrite "systemic" [cs "fever", cs "hot", cs "temp", cs "chill",
    cs "shiver", cs "sweat", cs "ache", cs "weak"] t
  ++ reWrite "pain" [cs "hurt", cs "pain", cs "stab", cs "sharp", cs "rib",
    cs "burn"] t
  ++ reWrite "triggers" [cs "dust", cs "pollen", cs "cat", cs "dog", cs "pet",
    cs "smoke", cs "weather", cs "season"] t
  ++ reWrite "congestion" [cs "stuff", cs "block", cs "full", cs "clog",
    cs "drip"] t

/-- NEUROLOGICAL extraction cascade of `get_next_question`. -/
def neuroWrites (t : List Char) : List (String × String) :=
  reWrite "location" [cs "front", cs "back", cs "side", cs "temple",
    cs "forehead", cs "skull", cs "left", cs "right", cs "spot", cs "all over"] t
  ++ reWrite "associated_symptoms" [cs "nausea", cs "sick", cs "vomit",
    cs "puke", cs "light", cs "bright", cs "sound", cs "noise", cs "loud",
    cs "eye hurt"] t
  ++ reWrite "sensation" [cs "spin", cs "room", cs "round", cs "lightheaded",
    cs "woozy", cs "faint", cs "unsteady", cs "balance", cs "fall"] t
  ++ reWrite "triggers" [cs "stand", cs "up", cs "rise", cs "bed", cs "roll",
    cs "turn", cs "move head", cs "lying"] t
  ++ reWrite "ears" [cs "ring", cs "buzz", cs "ear", cs "full", cs "pop",
    cs "muffle", cs "hear", cs "tinnitus"] t
  ++ reWrite "clarity" [cs "blur", cs "double", cs "blind", cs "curtain",
    cs "dark", cs "see", cs "focus", cs "fog"] t
  ++ reWrite "disturbances" [cs "flash", cs "spot", cs "zig", cs "zag",
    cs "line", cs "star", cs "halo", cs "spark"] t
  ++ reWrite "onset" [cs "sudden", cs "instant", cs "gradual", cs "slow",
    cs "woke up"] t
  ++ reWrite "event" [cs "black", cs "faint", cs "pass out", cs "floor",
    cs "wake", cs "remember", cs "conscious"] t
  ++ reWrite "warning" [cs "aura", cs "smell", cs "sweat", cs "hot",
    cs "nausea", cs "dizzy before"] t
  ++ reWrite "aftermath" [cs "confuse", cs "tired", cs "sleepy", cs "bite",
    cs "tongue", cs "wet", cs "urine", cs "sore"] t
  ++ reWrite "weakness" [cs "numb", cs "tingle", cs "weak", cs "pin",
    cs "needle", cs "feel", cs "arm", cs "leg", cs "face", cs "droop"] t
  ++ reWrite "cognition" [cs "speak", cs "slur", cs "word", cs "talk",
    cs "understand", cs "confuse", cs "memory", cs "disorient"] t
  ++ reWrite "history" [cs "stroke", cs "seizure", cs "epilepsy",
    cs "medication", cs "drug", cs "history", cs "before"] t

/-- Compound-fracture urgency pattern `(bone sticking|bone out|white|open wound)`. -/
def fracturePats : List (List Char) :=
  [cs "bone sticking", cs "bone out", cs "white", cs "open wound"]

/-- ORTHOPEDIC extraction cascade of `get_next_question`. -/
def orthoWrites (t : List Char) : List (String × String) :=
  reWrite "radiation" [cs "shoot", cs "leg", cs "arm", cs "travel", cs "down",
    cs "radiate", cs "electric", cs "shock"] t
  ++ reWrite "numbness" [cs "numb", cs "groin", cs "butt", cs "bladder",
    cs "bowel", cs "toilet", cs "control"] t
  ++ reWrite "sounds" [cs "lock", cs "stuck", cs "click", cs "grind",
    cs "pop", cs "noise", cs "crunch"] t
  ++ reWrite "swelling" [cs "swell", cs "swollen", cs "puff", cs "red",
    cs "hot", cs "warm", cs "fluid", cs "balloon"] t
  ++ reWrite "mechanism" [cs "fall", cs "fell", cs "trip", cs "hit",
    cs "twist", cs "land", cs "crush", cs "accident"] t
  ++ reWrite "function" [cs "walk", cs "stand", cs "weight", cs "move",
    cs "step", cs "lift"] t
  ++ reWriteU "deformity" [cs "bent", cs "crooked", cs "shape", cs "bone",
    cs "sticking", cs "out", cs "deformed", cs "angle"]
    (hasAnyPat fracturePats) "CRITICAL" t
  ++ reWrite "usage" [cs "type", cs "computer", cs "morning", cs "first step",
    cs "walk", cs "run", cs "shoe"] t

/-- Severe-bleeding urgency pattern of the dermatological bleeding rule. -/
def dermaGushPats : List (List Char) :=
  [cs "gush", cs "won" ++ [Char.ofNat 39] ++ cs "t stop", cs "pulsing", cs "heavy"]

/-- Bleeding-rule pattern of the dermatological cascade. -/
def dermaBleedPats : List (List Char) :=
  [cs "blood", cs "bleed", cs "gush", cs "soak", cs "pulsing", cs "stop"]

/-- Infection-signs pattern of the dermatological cascade. -/
def dermaInfPats : List (List Char) :=
  [cs "pus", cs "yellow", cs "ooze", cs "streak", cs "line", cs "hot", cs "smell"]

/-- Lymphangitis urgency pattern `(streak|line)`. -/
def streakLinePats : List (List Char) := [cs "streak", cs "line"]

/-- Anaphylaxis (bite-systemic) pattern of the dermatological cascade. -/
def dermaSysPats : List (List Char) :=
  [cs "breath", cs "throat", cs "swallow", cs "dizzy", cs "faint",
   cs "tongue", cs "swell"]

/-- DERMATOLOGICAL extraction cascade of `get_next_question`. -/
def dermaWrites (t : List Char) : List (String × String) :=
  reWrite "triggers" [cs "soap", cs "lotion", cs "food", cs "plant",
    cs "woods", cs "detergent"] t
  ++ reWrite "sensation" [cs "itch", cs "burn", cs "sting", cs "pain",
    cs "hot", cs "fire"] t
  ++ reWrite "spread" [cs "spread", cs "move", cs "growing", cs "bigger",
    cs "body", cs "all over"] t
  ++ reWrite "depth" [cs "deep", cs "bone", cs "fat", cs "white",
    cs "charred", cs "blister", cs "open"] t
  ++ reWriteU "bleeding" dermaBleedPats (hasAnyPat dermaGushPats) "CRITICAL" t
  ++ reWriteU "infection_signs" dermaInfPats (hasAnyPat streakLinePats) "HIGH" t
  ++ reWriteU "systemic" dermaSysPats (fun _ => true) "CRITICAL" t
  ++ reWrite "location" [cs "face", cs "arm", cs "leg", cs "back", cs "hand",
    cs "foot", cs "stomach"] t

/-- Heatstroke urgency pattern `(stopped sweating|no sweat|dry skin|confused)`. -/
def heatstrokePats : List (List Char) :=
  [cs "stopped sweating", cs "no sweat", cs "dry skin", cs "confused"]

/-- GENERAL_SYSTEMIC extraction cascade of `get_next_question` (before the
redirect checks). -/
def generalWrites (t : List Char) : List (String × String) :=
  reWrite "intake" [cs "sun", cs "heat", cs "work", cs "outside", cs "sweat",
    cs "hot", cs "dry", cs "faint", cs "dizzy"] t
  ++ reWriteU "urine_output" [cs "urine", cs "pee", cs "bathroom", cs "burn",
    cs "yellow", cs "dark"] (hasAnyPat heatstrokePats) "CRITICAL" t
  ++ reWrite "assessment" [cs "fever", cs "temperature", cs "sick", cs "ill",
    cs "unwell", cs "symptom"] t
  ++ reWrite "fever_pattern" [cs "shiver", cs "chill", cs "shake", cs "cold",
    cs "night"] t
  ++ reWrite "pain_specifics" [cs "eye", cs "bone", cs "joint", cs "break",
    cs "muscle"] t
  ++ reWriteU "bleeding_check" [cs "bleed", cs "gum", cs "nose", cs "spot",
    cs "rash", cs "red"] (occursIn (cs "bleed")) "HIGH" t
  ++ reWrite "respiratory_check" [cs "nose", cs "throat", cs "sneeze",
    cs "cough", cs "chest", cs "congestion"] t
  ++ reWrite "weight_energy" [cs "weight", cs "thin", cs "fat", cs "loss",
    cs "gain", cs "sleep", cs "tired"] t
  ++ reWrite "classic_signs" [cs "thirsty", cs "hungry", cs "eat", cs "drink",
    cs "hair", cs "skin"] t
  ++ reWrite "timeline" [cs "family", cs "mom", cs "dad", cs "genetic",
    cs "sugar", cs "thyroid"] t

/-- GI-redirect keywords checked by the GENERAL_SYSTEMIC branch. -/
def giRedirectPats : List (List Char) :=
  [cs "stomach", cs "vomit", cs "puke", cs "diarrhea", cs "nausea", cs "poop"]

/-- Respiratory-redirect keywords. -/
def respRedirectPats : List (List Char) :=
  [cs "wheeze", cs "short of breath", cs "asthma", cs "lung"]

/-- Neurological-redirect keywords. -/
def neuroRedirectPats : List (List Char) :=
  [cs "seizure", cs "blind", cs "vision", cs "double", cs "slur"]

/-- Dermatological-redirect keywords. -/
def dermaRedirectPats : List (List Char) :=
  [cs "rash", cs "hives", cs "itch", cs "skin", cs "bump"]

/-- The redirect-detection checks run at the end of the GENERAL_SYSTEMIC
branch; the first matching domain wins and the clipboard is stamped with
`category_redirect`. -/
def redirectTarget (t : List Char) : Option String :=
  if hasAnyPat giRedirectPats t then some "GASTROINTESTINAL"
  else if hasAnyPat respRedirectPats t then some "RESPIRATORY"
  else if hasAnyPat neuroRedirectPats t then some "NEUROLOGICAL"
  else if hasAnyPat dermaRedirectPats t then some "DERMATOLOGICAL"
  else none

/-- The `category_redirect` stamp written when a redirect fires. -/
def redirectStamp (o : Option String) : List (String × String) :=
  match o with
  | some c => [("category_redirect", c)]
  | none => []

/-- Category dispatch of the extraction cascades (the `if/elif` chain on
`category` in `get_next_question`). -/
def catWrites (cat : String) (t : List Char) : List (String × String) :=
  if cat = "GASTROINTESTINAL" then gastroWrites t
  else if cat = "RESPIRATORY" then respWrites t
  else if cat = "NEUROLOGICAL" then neuroWrites t
  else if cat = "ORTHOPEDIC" then orthoWrites t
  else if cat = "DERMATOLOGICAL" then dermaWrites t
  else if cat = "GENERAL_SYSTEMIC" then generalWrites t
  else []

/-- All clipboard writes of one `get_next_question` call, in source order:
context resolution, duration, severity, the category cascade, and (for
GENERAL_SYSTEMIC) the redirect stamp. -/
def gnqWrites (cat : String) (lastSlot : Option String) (userText : List Char) :
    List (String × String) :=
  contextWrites lastSlot userText
  ++ durationWrite (lowerText userText)
  ++ severityWrite (lowerText userText)
  ++ catWrites cat (lowerText userText)
  ++ (if cat = "GENERAL_SYSTEMIC" then redirectStamp (redirectTarget (lowerText userText))
      else [])

/-- First-match association lookup (Python `dict.get`). -/
def lookupA {α : Type} (l : List (String × α)) (k : String) : Option α :=
  (l.find? (fun p => decide (p.1 = k))).map (fun p => p.2)

/-- A question bank for one category: sub-group to ordered slot list; each
slot carries the number of candidate question texts (the texts themselves
never influence control flow, `random.choice` only needs a non-empty list). -/
abbrev SubBank : Type := List (String × List (String × Nat))

/-- The first `SPECIALIST_QUESTIONS` dictionary literal (the GASTROINTESTINAL
bank). In the source this binding is later replaced wholesale by a second
dictionary literal, so it does not survive into the final question bank. -/
def SPECIALIST_QUESTIONS_initial : List (String × SubBank) :=
  [("GASTROINTESTINAL",
    [("STOMACH", [("duration", 3), ("vomiting", 3), ("severity", 3)]),
     ("INTESTINES", [("bowel", 2), ("bloating", 2), ("cramps", 2)]),
     ("ESOPHAGUS", [("swallowing", 2), ("heartburn", 2), ("regurgitation", 2)]),
     ("GENERAL", [("food_history", 2), ("fever", 2)]),
     ("DEFAULT", [("assessment", 3)])])]

/-- The NEUROLOGICAL bank (the second dictionary literal, which re-binds
`SPECIALIST_QUESTIONS` and discards the gastro bank). -/
def neuroBank : SubBank :=
  [("HEADACHE", [("location", 2), ("duration", 2), ("associated_symptoms", 2),
    ("severity", 2)]),
   ("DIZZINESS", [("sensation", 2), ("triggers", 2), ("ears", 2)]),
   ("VISION", [("clarity", 2), ("disturbances", 2), ("onset", 2)]),
   ("CONSCIOUSNESS", [("event", 2), ("warning", 2), ("aftermath", 2)]),
   ("GENERAL", [("weakness", 2), ("cognition", 2), ("history", 2)]),
   ("DEFAULT", [("assessment", 4)])]

/-- The RESPIRATORY bank, added by key assignment. -/
def respBank : SubBank :=
  [("BREATHING", [("onset", 2), ("severity", 2), ("sounds", 2)]),
   ("COUGH", [("type", 2), ("sputum", 2), ("duration", 2)]),
   ("INFECTION", [("systemic", 2), ("pain", 2), ("history", 2)]),
   ("GENERAL", [("symptoms", 2), ("triggers", 2), ("congestion", 2)]),
   ("DEFAULT", [("assessment", 4)])]

/-- The ORTHOPEDIC bank, added by key assignment. -/
def orthoBank : SubBank :=
  [("SPINE_BACK", [("radiation", 2), ("numbness", 2), ("triggers", 2)]),
   ("JOINTS", [("stiffness", 2), ("swelling", 2), ("sounds", 2)]),
   ("TRAUMA", [("mechanism", 2), ("deformity", 2), ("function", 2)]),
   ("EXTREMITIES", [("usage", 2), ("sensation", 2)]),
   ("GENERAL", [("location", 2), ("impact", 2)]),
   ("DEFAULT", [("assessment", 3)])]

/-- The DERMATOLOGICAL bank, added by key assignment. -/
def dermaBank : SubBank :=
  [("RASH_ALLERGY", [("spread", 2), ("triggers", 2), ("sensation", 1)]),
   ("TRAUMA_BURN", [("depth", 2), ("bleeding", 2), ("infection_signs", 2)]),
   ("BITES", [("appearance", 2), ("systemic", 2)]),
   ("GENERAL", [("duration", 2), ("location", 2)]),
   ("DEFAULT", [("assessment", 3)])]

/-- The GENERAL_SYSTEMIC bank, added by key assignment. -/
def generalBank : SubBank :=
  [("SUMMER_HYDRATION", [("intake", 2), ("urine_output", 2), ("mental_state", 2)]),
   ("MONSOON_VECTOR", [("fever_pattern", 2), ("pain_specifics", 2),
    ("bleeding_check", 2)]),
   ("WINTER_VIRAL", [("respiratory_check", 2), ("severity", 2)]),
   ("CHRONIC_METABOLIC", [("weight_energy", 2), ("classic_signs", 2),
    ("timeline", 2)]),
   ("FLU_SYMPTOMS", [("temperature", 2), ("duration", 2), ("other_symptoms", 2)]),
   ("FATIGUE", [("sleep", 2), ("impact", 2), ("duration", 2)]),
   ("WEIGHT_APPETITE", [("amount", 2), ("timeline", 2)]),
   ("DEFAULT", [("assessment", 3)])]

/-- The question bank as it stands when the module has finished loading:
the second literal (NEUROLOGICAL) plus the four key assignments. The
GASTROINTESTINAL entry of `SPECIALIST_QUESTIONS_initial` is gone, having
been discarded by the re-binding. -/
def SPECIALIST_QUESTIONS : List (String × SubBank) :=
  [("NEUROLOGICAL", neuroBank),
   ("RESPIRATORY", respBank),
   ("ORTHOPEDIC", orthoBank),
   ("DERMATOLOGICAL", dermaBank),
   ("GENERAL_SYSTEMIC", generalBank)]

/-- Result of one `get_next_question` call: the redirect sentinel, the slot
whose question is asked next, or completion (`None, None`). -/
inductive QRes : Type where
  | redirect : QRes
  | ask : String → QRes
  | done : QRes
deriving DecidableEq, Repr

/-- The question-selection scan at the end of `get_next_question`: the first
slot of `SPECIALIST_QUESTIONS.get(category, {}).get(sub_group, {})` whose
clipboard value is absent, in definition order. -/
def pickNext (cat sub : String) (cb : Clipboard) : QRes :=
  match (((lookupA SPECIALIST_QUESTIONS cat).getD []).find?
      (fun p => decide (p.1 = sub))).map (fun p => p.2) with
  | some slots =>
    match slots.find? (fun sl => (getSlot cb sl.1).isNone) with
    | some sl => QRes.ask sl.1
    | none => QRes.done
  | none => QRes.done

/-- One call of `get_next_question(category, sub_group, user_text,
current_clipboard, last_asked_slot)`: performs all clipboard writes, then
either signals a redirect (GENERAL_SYSTEMIC only) or selects the next
question. -/
def get_next_question (cat sub : String) (userText : List Char) (cb : Clipboard)
    (lastSlot : Option String) : Clipboard × QRes :=
  let cb2 := applyWrites (gnqWrites cat lastSlot userText) cb
  if cat = "GENERAL_SYSTEMIC" ∧ (redirectTarget (lowerText userText)).isSome then
    (cb2, QRes.redirect)
  else (cb2, pickNext cat sub cb2)

/-- `GASTRO_KEYWORDS` router table. -/
def GASTRO_KEYWORDS : List (String × List (List Char)) :=
  [("STOMACH", [cs "vomit", cs "nausea", cs "puke", cs "throw up", cs "upper",
    cs "ulcer", cs "gastritis", cs "tummy"]),
   ("INTESTINES", [cs "diarrhea", cs "constipation", cs "poop", cs "stool",
    cs "bloat", cs "gas", cs "cramp", cs "lower"]),
   ("ESOPHAGUS", [cs "heartburn", cs "acid", cs "reflux", cs "chest",
    cs "burn", cs "swallow", cs "gerd"]),
   ("GENERAL", [cs "poison", cs "food", cs "ate", cs "sushi", cs "bad food",
    cs "flu"])]

/-- `NEURO_KEYWORDS` router table. -/
def NEURO_KEYWORDS : List (String × List (List Char)) :=
  [("HEADACHE", [cs "headache", cs "migraine", cs "head", cs "temple",
    cs "throb", cs "pounding", cs "forehead", cs "skull", cs "pressure",
    cs "ache"]),
   ("DIZZINESS", [cs "dizzy", cs "spin", cs "spinning", cs "lightheaded",
    cs "woozy", cs "balance", cs "steady", cs "unsteady", cs "vertigo",
    cs "fall"]),
   ("VISION", [cs "vision", cs "blur", cs "blurry", cs "double", cs "see",
    cs "sight", cs "flash", cs "spots", cs "blind", cs "eye"]),
   ("CONSCIOUSNESS", [cs "faint", cs "black out", cs "blackout",
    cs "passed out", cs "unconscious", cs "seizure", cs "fit",
    cs "convulsion", cs "wake up"]),
   ("GENERAL", [cs "numb", cs "numbness", cs "tingle", cs "tingling",
    cs "weak", cs "weakness", cs "confused", cs "confusion", cs "slur",
    cs "speak", cs "stroke", cs "face"])]

/-- `RESPIRATORY_KEYWORDS` router table. -/
def RESPIRATORY_KEYWORDS : List (String × List (List Char)) :=
  [("BREATHING", [cs "breath", cs "breathing", cs "short of breath",
    cs "gasp", cs "wheeze", cs "tight", cs "suffocate", cs "air", cs "pant",
    cs "asthma", cs "inhaler"]),
   ("COUGH", [cs "cough", cs "hacking", cs "phlegm", cs "sputum", cs "mucus",
    cs "spit", cs "blood", cs "dry cough", cs "wet cough", cs "bark"]),
   ("INFECTION", [cs "pneumonia", cs "bronchitis", cs "fever", cs "chills",
    cs "flu", cs "cold", cs "chest infection", cs "painful breath"]),
   ("GENERAL", [cs "chest", cs "congestion", cs "stuff", cs "stuffed",
    cs "allergy", cs "sneeze", cs "runny nose", cs "nose", cs "sinus"])]

/-- `ORTHO_KEYWORDS` router table. -/
def ORTHO_KEYWORDS : List (String × List (List Char)) :=
  [("SPINE_BACK", [cs "back", cs "spine", cs "neck", cs "lumbar", cs "disc",
    cs "sciatica", cs "tailbone", cs "vertebrae", cs "stiff neck"]),
   ("JOINTS", [cs "knee", cs "hip", cs "shoulder", cs "elbow", cs "joint",
    cs "arthritis", cs "socket", cs "rotator cuff", cs "meniscus"]),
   ("EXTREMITIES", [cs "hand", cs "wrist", cs "finger", cs "thumb", cs "foot",
    cs "ankle", cs "toe", cs "heel", cs "plantar", cs "carpal"]),
   ("TRAUMA", [cs "break", cs "broken", cs "fracture", cs "fall", cs "fell",
    cs "twist", cs "sprain", cs "accident", cs "hit", cs "crash", cs "pop",
    cs "snap"]),
   ("GENERAL", [cs "muscle", cs "ache", cs "sore", cs "stiffness",
    cs "swelling", cs "swell", cs "bruise", cs "cramp", cs "knot"])]

/-- `DERMA_KEYWORDS` router table. -/
def DERMA_KEYWORDS : List (String × List (List Char)) :=
  [("RASH_ALLERGY", [cs "rash", cs "hives", cs "eczema", cs "redness",
    cs "bump", cs "blister", cs "spot", cs "pimple", cs "acne", cs "breakout",
    cs "psoriasis"]),
   ("TRAUMA_BURN", [cs "cut", cs "burn", cs "bleed", cs "wound", cs "scrape",
    cs "scald", cs "fire", cs "knife", cs "injury", cs "tear",
    cs "laceration", cs "hot"]),
   ("BITES", [cs "bite", cs "sting", cs "spider", cs "bug", cs "mosquito",
    cs "tick", cs "bee", cs "wasp", cs "insect"]),
   ("GENERAL", [cs "itch", cs "dry", cs "peel", cs "flake", cs "skin",
    cs "scab", cs "mole", cs "lump", cs "growth"])]

/-- `GENERAL_KEYWORDS` router table. -/
def GENERAL_KEYWORDS : List (String × List (List Char)) :=
  [("SUMMER_HYDRATION", [cs "sun", cs "heat", cs "hot", cs "sweat", cs "dry",
    cs "thirsty", cs "water", cs "urine", cs "pee", cs "burn", cs "faint",
    cs "dizzy", cs "dehydrated"]),
   ("MONSOON_VECTOR", [cs "mosquito", cs "bite", cs "shiver", cs "chill",
    cs "cold", cs "shake", cs "bone pain", cs "joint pain", cs "eye pain",
    cs "dengue", cs "malaria"]),
   ("WINTER_VIRAL", [cs "flu", cs "cold", cs "sneeze", cs "runny", cs "nose",
    cs "ache", cs "body pain", cs "sore throat", cs "cough", cs "congestion",
    cs "viral"]),
   ("CHRONIC_METABOLIC", [cs "tired", cs "fatigue", cs "weak", cs "weight",
    cs "loss", cs "gain", cs "hair", cs "hungry", cs "thirst", cs "sugar",
    cs "thyroid", cs "pale", cs "sleep"]),
   ("FLU_SYMPTOMS", [cs "fever", cs "chill", cs "shiver", cs "temperature",
    cs "high temp", cs "sweat", cs "hot", cs "cold", cs "body ache",
    cs "muscle ache", cs "sore body", cs "weak", cs "flu", cs "viral"]),
   ("FATIGUE", [cs "tired", cs "fatigue", cs "exhausted", cs "low energy",
    cs "sleepy", cs "draining", cs "lethargic", cs "no energy",
    cs "worn out"]),
   ("WEIGHT_APPETITE", [cs "weight loss", cs "weight gain", cs "lost weight",
    cs "thin", cs "heavy", cs "no appetite", cs "hungry", cs "not eating",
    cs "eating too much"])]

/-- `get_best_subgroup(text, category)`: lowercases the text, picks the
category's router table, and returns the first sub-group one of whose
keywords occurs in the text, else `DEFAULT`. -/
def get_best_subgroup (text : List Char) (category : String) : String :=
  let tl := lowerText text
  let table : List (String × List (List Char)) :=
    if category = "GASTROINTESTINAL" then GASTRO_KEYWORDS
    else if category = "NEUROLOGICAL" then NEURO_KEYWORDS
    else if category = "RESPIRATORY" then RESPIRATORY_KEYWORDS
    else if category = "ORTHOPEDIC" then ORTHO_KEYWORDS
    else if category = "DERMATOLOGICAL" then DERMA_KEYWORDS
    else if category = "GENERAL_SYSTEMIC" then GENERAL_KEYWORDS
    else []
  match table.find? (fun sg => sg.2.any (fun w => occursIn w tl)) with
  | some sg => sg.1
  | none => "DEFAULT"

/-- The keyword category heuristic run once at session creation (the
`if/elif` chain at the top of `/predict`), on the lowercased text. -/
def classify_category (tl : List Char) : String :=
  if ([cs "cough", cs "breath", cs "chest", cs "wheeze", cs "lung"]).any
      (fun w => occursIn w tl) then "RESPIRATORY"
  else if ([cs "head", cs "dizzy", cs "migraine", cs "seizure", cs "vision",
      cs "faint"]).any (fun w => occursIn w tl) then "NEUROLOGICAL"
  else if ([cs "skin", cs "rash", cs "itch", cs "blister", cs "burn",
      cs "hives"]).any (fun w => occursIn w tl) then "DERMATOLOGICAL"
  else if ([cs "bone", cs "fracture", cs "knee", cs "back", cs "joint",
      cs "swollen"]).any (fun w => occursIn w tl) then "ORTHOPEDIC"
  else if ([cs "stomach", cs "vomit", cs "puke", cs "diarrhea", cs "nausea",
      cs "pain"]).any (fun w => occursIn w tl) then "GASTROINTESTINAL"
  else "GENERAL_SYSTEMIC"

/-- Python `s.replace("_", " ")` for single characters. -/
def underscoresToSpaces (s : String) : String :=
  String.mk (s.data.map (fun c => if c = '_' then ' ' else c))

/-- Python `s.capitalize()`: first character upper-cased, the rest lower-cased. -/
def pyCapitalize (s : String) : String :=
  match s.data with
  | [] => ""
  | c :: rest => String.mk (c.toUpper :: rest.map Char.toLower)

/-- Embeds `generate_summary(clipboard, final_category)`: the category
templates with their fallback phrases, and the generic fallback listing
every non-metadata clipboard entry. -/
def generate_summary (cb : Clipboard) (final_category : String) : String :=
  let duration := (getSlot cb "duration").getD "unknown duration"
  let severity := (getSlot cb "severity").getD "undetermined severity"
  if final_category = "ORTHOPEDIC" then
    let location := (getSlot cb "location").getD "an extremity"
    let mechanism := (getSlot cb "mechanism").getD "an injury"
    let s1 := "Patient presents with " ++ location ++ " injury following "
      ++ mechanism ++ ", reporting " ++ severity ++ " pain."
    let s2 := s1 ++ (match getSlot cb "deformity" with
      | some d => " Noting " ++ d ++ "."
      | none => "")
    s2 ++ (match getSlot cb "function" with
      | some f => " Functionality is " ++ f ++ "."
      | none => "")
  else if final_category = "GASTROINTESTINAL" then
    let symptoms := (getSlot cb "vomiting").toList ++ (getSlot cb "bowel").toList
      ++ (getSlot cb "bloating").toList ++ (getSlot cb "stool_color").toList
    let clean := symptoms.filter (fun s => decide (s ≠ "Filled"))
    let symptomsText := if clean = [] then "GI symptoms"
      else String.intercalate ", " clean
    let triggers := (getSlot cb "triggers").getD "unknown causes"
    "Patient reports " ++ symptomsText ++ " triggered by " ++ triggers
      ++ ", persisting for " ++ duration ++ " with " ++ severity ++ "."
  else if final_category = "RESPIRATORY" then
    let onset := (getSlot cb "onset").getD "onset"
    let coughType := (getSlot cb "type").getD "cough"
    let sputum := (getSlot cb "sputum").getD "no sputum"
    let s1 := "Patient presents with " ++ onset
      ++ " respiratory symptoms, characterized by " ++ coughType ++ "."
    let s2 := s1 ++ (match getSlot cb "sounds" with
      | some snd => " Breath sounds described as " ++ snd ++ "."
      | none => "")
    s2 ++ (match getSlot cb "sputum" with
      | some sv => if sv ≠ "Filled" then " Sputum is " ++ sputum ++ "." else ""
      | none => "")
  else if final_category = "NEUROLOGICAL" then
    let location := (getSlot cb "location").getD "head/body"
    let sensation := (getSlot cb "sensation").getD "neurological sensation"
    let s1 := "Patient reports " ++ sensation ++ " involving " ++ location
      ++ " for " ++ duration ++ "."
    let s2 := s1 ++ (match getSlot cb "associated_symptoms" with
      | some a => " Associated with " ++ a ++ "."
      | none => "")
    s2 ++ (match getSlot cb "event" with
      | some e => " Reports consciousness event: " ++ e ++ "."
      | none => "")
  else if final_category = "DERMATOLOGICAL" then
    let location := (getSlot cb "location").getD "skin"
    let triggers := (getSlot cb "triggers").getD "unknown triggers"
    let s1 :=
      if triggers = "no known triggers" then
        "Patient presents with cutaneous symptoms on " ++ location
          ++ ". No triggers reported."
      else
        "Patient presents with cutaneous symptoms on " ++ location
          ++ " triggered by " ++ triggers ++ "."
    let s2 := s1 ++ (match getSlot cb "sensation" with
      | some sn => " Reports sensation of " ++ sn ++ "."
      | none => "")
    let s3 := s2 ++ (match getSlot cb "spread" with
      | some sp => " Noting spread: " ++ sp ++ "."
      | none => "")
    s3 ++ (match getSlot cb "infection_signs" with
      | some inf => " Possible infection signs: " ++ inf ++ "."
      | none => "")
  else
    let symptomsList :=
      (cb.filter (fun p =>
        !(decide (p.1 ∈ ["duration", "severity", "category_redirect",
          "URGENCY_OVERRIDE"])))).map
        (fun p => if p.2 ≠ "Filled" then p.2
          else pyCapitalize (underscoresToSpaces p.1))
    let symptomsText := if symptomsList = [] then "general symptoms"
      else String.intercalate ", " symptomsList
    "Patient reports " ++ symptomsText ++ " for " ++ duration ++ " with "
      ++ severity ++ "."

/-- The specialist assignment table of the completion branch. -/
def specialist_map (cat : String) : String :=
  if cat = "GASTROINTESTINAL" then "Gastroenterologist"
  else if cat = "NEUROLOGICAL" then "Neurologist"
  else if cat = "RESPIRATORY" then "Pulmonologist"
  else if cat = "ORTHOPEDIC" then "Orthopedist"
  else if cat = "DERMATOLOGICAL" then "Dermatologist"
  else if cat = "GENERAL_SYSTEMIC" then "General Physician"
  else "General Physician"

/-- The consultation row handed to the record store by the completion branch
of `/predict` (the INSERT INTO consultations). The `urgency_score` column is
the literal string the code passes. -/
structure CaseRecord : Type where
  ai_summary : String
  predicted_category : String
  urgency_score : String
  doctor_assigned : String
  status : String
deriving DecidableEq, Repr

/-- The completion branch: generate the summary, assign the specialist, and
build the row inserted into the record store. The source passes the constant
`"Normal"` as `urgency_score`. -/
def completionRecord (cb : Clipboard) (cat : String) : CaseRecord :=
  { ai_summary := generate_summary cb cat
    predicted_category := cat
    urgency_score := "Normal"
    doctor_assigned := specialist_map cat
    status := "PENDING" }

/-- Per-user session state held in `active_sessions`. -/
structure Session : Type where
  category : String
  subgroup : String
  clipboard : Clipboard
  lastSlot : Option String
deriving DecidableEq, Repr

/-- Observable result of one `/predict` turn: either the next question (the
session stays active, `locked=false`) or completion (the case row is handed
to the record store, the session is deleted, `locked=true`). -/
inductive Outcome : Type where
  | question : String → Outcome
  | completed : CaseRecord → Outcome
deriving DecidableEq, Repr

/-- `locked` flag of the turn's response. -/
def lockedOutcome : Outcome → Bool
  | Outcome.question _ => false
  | Outcome.completed _ => true

/-- Whether the turn declared the interview complete. -/
def isCompleted (o : Outcome) : Bool := lockedOutcome o

/-- Step A of `/predict`: when the sub-group is still DEFAULT, run the
mini-router; on a hit, update the sub-group and pre-fill slots from the same
utterance (the result question of that call is discarded). Returns the
sub-group and clipboard used by the main call. -/
def stepA (s : Session) (u : List Char) : String × Clipboard :=
  if s.subgroup = "DEFAULT" then
    let ns := get_best_subgroup u s.category
    if ns = "DEFAULT" then (s.subgroup, s.clipboard)
    else (ns, (get_next_question s.category ns u s.clipboard none).1)
  else (s.subgroup, s.clipboard)

/-- Step D of `/predict`: either remember the asked slot and return the
question, or generate the summary, hand the case row to the record store,
delete the session, and return `locked=true`. -/
def finishTurn (s : Session) (r : QRes) : Session × Outcome :=
  match r with
  | QRes.ask slot => ({ s with lastSlot := some slot }, Outcome.question slot)
  | _ => (s, Outcome.completed (completionRecord s.clipboard s.category))

/-- Step C of `/predict` (the silent switch): read the stamped target
category, re-route the sub-group, re-process the same utterance under the
new category, then fetch the next question with an empty utterance. -/
def redirectTurn (s : Session) (u : List Char) (cb2 : Clipboard) :
    Session × Outcome :=
  let newCat := (getSlot cb2 "category_redirect").getD ""
  let newSub := get_best_subgroup u newCat
  let cb3 := (get_next_question newCat newSub u cb2 none).1
  let qr := get_next_question newCat newSub [] cb3 none
  finishTurn
    { category := newCat, subgroup := newSub, clipboard := qr.1,
      lastSlot := s.lastSlot }
    qr.2

/-- The logic-engine portion of one `/predict` turn on an existing session:
router (step A), main `get_next_question` call (step B), redirect handling
(step C), and output decision (step D). -/
def predictTurn (s : Session) (u : List Char) : Session × Outcome :=
  if (get_next_question s.category (stepA s u).1 u (stepA s u).2 s.lastSlot).2
      = QRes.redirect then
    redirectTurn s u
      (get_next_question s.category (stepA s u).1 u (stepA s u).2 s.lastSlot).1
  else
    finishTurn
      { category := s.category, subgroup := (stepA s u).1,
        clipboard :=
          (get_next_question s.category (stepA s u).1 u (stepA s u).2 s.lastSlot).1,
        lastSlot := s.lastSlot }
      (get_next_question s.category (stepA s u).1 u (stepA s u).2 s.lastSlot).2

/-- Session created on a user's first utterance: keyword category
classification on the lowercased text, DEFAULT sub-group, empty clipboard. -/
def freshSession (u : List Char) : Session :=
  { category := classify_category (lowerText u), subgroup := "DEFAULT",
    clipboard := [], lastSlot := none }

/-- The exact condition under which the respiratory sputum rule raises the
hemoptysis CRITICAL flag: the sputum pattern matches somewhere, a
blood/red/pink token occurs anywhere in the text, and the negation window
before the position of the first sputum-pattern match is clean. -/
def hemoFlag (t : List Char) : Bool :=
  match findFirst sputumPats t with
  | some (i, _) => hasAnyPat bloodPats t && !check_negation t i
  | none => false

/-- Every occurrence of a blood/red/pink token in `t` is preceded by a
negation token within the negation window (the premise of claim C5). -/
def allBloodNegated (t : List Char) : Bool :=
  (List.range t.length).all (fun j =>
    bloodPats.all (fun p =>
      !(List.isPrefixOf p (t.drop j)) || check_negation t j))

/-- The slots a GENERAL_SYSTEMIC-to-GASTROINTESTINAL redirect turn can
re-extract from the new utterance: the cross-cutting slots, the
GENERAL_SYSTEMIC cascade's slots, the GASTROINTESTINAL cascade's slots, and
the two reserved keys. Every clipboard key outside this list (and distinct
from the slot asked last turn) is untouched by such a turn. -/
def redirectTouchableKeys : List String :=
  ["duration", "severity",
   "intake", "urine_output", "assessment", "fever_pattern", "pain_specifics",
   "bleeding_check", "respiratory_check", "weight_energy", "classic_signs",
   "timeline",
   "vomiting", "bowel", "bloating", "triggers", "stool_color", "hydration",
   "URGENCY_OVERRIDE", "category_redirect"]

/-- Whether an urgency-carrying rule fires: its pattern matches, its extra
urgency predicate holds of the whole text, and the negation window before
the (first) match position is clean. -/
def ruleUrgFired (pats : List (List Char)) (extra : List Char → Bool)
    (t : List Char) : Bool :=
  match findFirst pats t with
  | some (i, _) => extra t && !check_negation t i
  | none => false

/-- Union of all clipboard keys any extraction or stamp can write (the
cross-cutting slots, every cascade's slots, and the two reserved keys);
the slot asked last turn is the only other key a turn can touch. -/
def allSlotKeys : List String :=
  ["duration", "severity", "category_redirect", "URGENCY_OVERRIDE",
   "vomiting", "bowel", "bloating", "triggers", "stool_color", "hydration",
   "onset", "sounds", "type", "sputum", "systemic", "pain", "congestion",
   "location", "associated_symptoms", "sensation", "ears", "clarity",
   "disturbances", "event", "warning", "aftermath", "weakness", "cognition",
   "history", "radiation", "numbness", "swelling", "mechanism", "function",
   "deformity", "usage", "spread", "depth", "bleeding", "infection_signs",
   "intake", "urine_output", "assessment", "fever_pattern", "pain_specifics",
   "bleeding_check", "respiratory_check", "weight_energy", "classic_signs",
   "timeline"]

@[simp] theorem getSlot_nil (k : String) : getSlot [] k = none := rfl

@[simp] theorem getSlot_cons (p : String × String) (l : Clipboard) (k : String) :
    getSlot (p :: l) k = if p.1 = k then some p.2 else getSlot l k := rfl

@[simp] theorem lastVal_nil (k : String) : lastVal [] k = none := rfl

theorem lastVal_cons_of_some (w : String × String) (S : List (String × String))
    (k : String) (v : String) (h : lastVal S k = some v) :
    lastVal (w :: S) k = some v := by
  unfold lastVal; rw [h]

theorem lastVal_cons_of_none (w : String × String) (S : List (String × String))
    (k : String) (h : lastVal S k = none) :
    lastVal (w :: S) k = if w.1 = k then some w.2 else none := by
  unfold lastVal; rw [h]

@[simp] theorem applyWrites_nil (cb : Clipboard) : applyWrites [] cb = cb := rfl

@[simp] theorem applyWrites_cons (w : String × String) (S : List (String × String))
    (cb : Clipboard) :
    applyWrites (w :: S) cb = applyWrites S (setSlot cb w.1 w.2) := rfl

theorem applyWrites_append (S T : List (String × String)) (cb : Clipboard) :
    applyWrites (S ++ T) cb = applyWrites T (applyWrites S cb) := by
  induction S generalizing cb with
  | nil => simp
  | cons w S ih => simp [ih]

theorem getSlot_map_upd (cb : Clipboard) (k v k' : String) :
    getSlot (cb.map (fun p => if p.1 = k then (k, v) else p)) k'
      = if k' = k then (getSlot cb k).map (fun _ => v) else getSlot cb k' := by
  induction cb with
  | nil => simp
  | cons p rest ih =>
    by_cases hpk : p.1 = k
    · by_cases hk : k' = k
      · subst hk; simp [hpk, ih]
      · have hk2 : ¬ k = k' := fun h => hk h.symm
        simp [hpk, ih, hk, hk2]
    · by_cases hpk' : p.1 = k'
      · have hk : ¬ k' = k := fun h => hpk (hpk'.trans h)
        simp [hpk, hpk', hk]
      · simp [hpk, hpk', ih]

theorem getSlot_append (a b : Clipboard) (k : String) :
    getSlot (a ++ b) k
      = match getSlot a k with
        | some v => some v
        | none => getSlot b k := by
  induction a with
  | nil => simp
  | cons p rest ih =>
    by_cases hp : p.1 = k
    · simp [hp]
    · simp [hp, ih]

theorem getSlot_setSlot (cb : Clipboard) (k v k' : String) :
    getSlot (setSlot cb k v) k' = if k' = k then some v else getSlot cb k' := by
  unfold setSlot
  by_cases hs : (getSlot cb k).isSome
  · rw [if_pos hs, getSlot_map_upd]
    rcases Option.isSome_iff_exists.mp hs with ⟨u, hu⟩
    by_cases hk : k' = k
    · simp [hk, hu]
    · simp [hk]
  · rw [if_neg hs, getSlot_append]
    have hnone : getSlot cb k = none := Option.not_isSome_iff_eq_none.mp hs
    by_cases hk : k' = k
    · subst hk; simp [hnone]
    · have hk2 : ¬ k = k' := fun h => hk h.symm
      cases h : getSlot cb k' with
      | some u => simp [hk]
      | none => simp [hk, hk2]

theorem getSlot_applyWrites (S : List (String × String)) (cb : Clipboard)
    (k : String) :
    getSlot (applyWrites S cb) k
      = match lastVal S k with
        | some v => some v
        | none => getSlot cb k := by
  induction S generalizing cb with
  | nil => simp
  | cons w S ih =>
    rw [applyWrites_cons, ih]
    cases h : lastVal S k with
    | some v => rw [lastVal_cons_of_some w S k v h]
    | none =>
      rw [lastVal_cons_of_none w S k h, getSlot_setSlot]
      by_cases hk : w.1 = k
      · simp [hk]
      · have hk2 : ¬ k = w.1 := fun hh => hk hh.symm
        simp [hk, hk2]

theorem lastVal_append (S T : List (String × String)) (k : String) :
    lastVal (S ++ T) k
      = match lastVal T k with
        | some v => some v
        | none => lastVal S k := by
  induction S with
  | nil => cases h : lastVal T k <;> simp [h]
  | cons w S ih =>
    rw [List.cons_append]
    cases h : lastVal T k with
    | some v =>
      have hST : lastVal (S ++ T) k = some v := by rw [ih, h]
      exact lastVal_cons_of_some w _ k v hST
    | none =>
      cases h2 : lastVal S k with
      | some u =>
        have hST : lastVal (S ++ T) k = some u := by rw [ih, h]; exact h2
        exact (lastVal_cons_of_some w _ k u hST).trans
          (lastVal_cons_of_some w S k u h2).symm
      | none =>
        have hST : lastVal (S ++ T) k = none := by rw [ih, h]; exact h2
        exact (lastVal_cons_of_none w _ k hST).trans
          (lastVal_cons_of_none w S k h2).symm

theorem lastVal_eq_none (S : List (String × String)) (k : String)
    (h : ∀ w ∈ S, w.1 ≠ k) : lastVal S k = none := by
  induction S with
  | nil => rfl
  | cons w S ih =>
    have hS : lastVal S k = none := ih (fun x hx => h x (List.mem_cons_of_mem w hx))
    rw [lastVal_cons_of_none w S k hS, if_neg (h w (List.mem_cons_self w S))]

theorem mem_of_lastVal (S : List (String × String)) (k v : String)
    (h : lastVal S k = some v) : (k, v) ∈ S := by
  induction S with
  | nil => simp [lastVal] at h
  | cons w S ih =>
    cases h2 : lastVal S k with
    | some u =>
      rw [lastVal_cons_of_some w S k u h2] at h
      have hu : u = v := Option.some.inj h
      subst hu
      exact List.mem_cons_of_mem w (ih h2)
    | none =>
      rw [lastVal_cons_of_none w S k h2] at h
      by_cases hw : w.1 = k
      · rw [if_pos hw] at h
        have hv : w.2 = v := Option.some.inj h
        have hwk : w = (k, v) := Prod.ext hw hv
        rw [← hwk]
        exact List.mem_cons_self w S
      · rw [if_neg hw] at h; simp at h

theorem getSlot_applyWrites_frame (S : List (String × String)) (cb : Clipboard)
    (k : String) (h : ∀ w ∈ S, w.1 ≠ k) :
    getSlot (applyWrites S cb) k = getSlot cb k := by
  rw [getSlot_applyWrites, lastVal_eq_none S k h]

theorem lastVal_none_not_mem (S : List (String × String)) (k : String)
    (h : lastVal S k = none) : ∀ w ∈ S, w.1 ≠ k := by
  induction S with
  | nil => intro w hw; simp at hw
  | cons w0 S ih =>
    intro w hw
    cases h2 : lastVal S k with
    | some v => rw [lastVal_cons_of_some w0 S k v h2] at h; simp at h
    | none =>
      rw [lastVal_cons_of_none w0 S k h2] at h
      rcases List.mem_cons.mp hw with h3 | h3
      · subst h3; intro hk; rw [if_pos hk] at h; simp at h
      · exact ih h2 w h3

theorem getSlot_none_not_mem (cb : Clipboard) (k : String)
    (h : getSlot cb k = none) : ∀ p ∈ cb, p.1 ≠ k := by
  induction cb with
  | nil => intro p hp; simp at hp
  | cons q rest ih =>
    intro p hp
    rw [getSlot_cons] at h
    by_cases hq : q.1 = k
    · rw [if_pos hq] at h; simp at h
    · rw [if_neg hq] at h
      rcases List.mem_cons.mp hp with hpq | hpr
      · rw [hpq]; exact hq
      · exact ih h p hpr

theorem mem_setSlot_ne (cb : Clipboard) (k v : String) (p : String × String)
    (hp : p ∈ setSlot cb k v) (hne : p.1 ≠ k) : p ∈ cb := by
  unfold setSlot at hp
  by_cases hs : (getSlot cb k).isSome
  · rw [if_pos hs] at hp
    rcases List.mem_map.mp hp with ⟨q, hq, hqe⟩
    by_cases hqk : q.1 = k
    · rw [if_pos hqk] at hqe; rw [← hqe] at hne; simp at hne
    · rw [if_neg hqk] at hqe; rw [← hqe]; exact hq
  · rw [if_neg hs] at hp
    rcases List.mem_append.mp hp with h1 | h2
    · exact h1
    · simp at h2; rw [h2] at hne; simp at hne

theorem mem_setSlot_key (cb : Clipboard) (k v : String) (p : String × String)
    (hp : p ∈ setSlot cb k v) (hk : p.1 = k) : p = (k, v) := by
  unfold setSlot at hp
  by_cases hs : (getSlot cb k).isSome
  · rw [if_pos hs] at hp
    rcases List.mem_map.mp hp with ⟨q, hq, hqe⟩
    by_cases hqk : q.1 = k
    · rw [if_pos hqk] at hqe; exact hqe.symm
    · rw [if_neg hqk] at hqe; rw [← hqe] at hk; exact absurd hk hqk
  · rw [if_neg hs] at hp
    rcases List.mem_append.mp hp with h1 | h2
    · exact absurd hk
        (getSlot_none_not_mem cb k (Option.not_isSome_iff_eq_none.mp hs) p h1)
    · simpa using h2

theorem mem_applyWrites_no_key :
    ∀ (S : List (String × String)) (cb : Clipboard) (k : String),
      (∀ w ∈ S, w.1 ≠ k) → ∀ p ∈ applyWrites S cb, p.1 = k → p ∈ cb := by
  intro S
  induction S with
  | nil => intro cb k _ p hp _; exact hp
  | cons w S ih =>
    intro cb k hS p hp hk
    rw [applyWrites_cons] at hp
    have hmem : p ∈ setSlot cb w.1 w.2 :=
      ih (setSlot cb w.1 w.2) k (fun x hx => hS x (List.mem_cons_of_mem w hx)) p hp hk
    exact mem_setSlot_ne cb w.1 w.2 p hmem
      (fun h => hS w (List.mem_cons_self w S) (h.symm.trans hk))

theorem memkey_isSome_applyWrites (S : List (String × String)) (cb : Clipboard) :
    ∀ w ∈ S, (getSlot (applyWrites S cb) w.1).isSome := by
  intro w hw
  rw [getSlot_applyWrites]
  cases hl : lastVal S w.1 with
  | some v => rfl
  | none => exact absurd rfl (lastVal_none_not_mem S w.1 hl w hw)

theorem setSlot_eq_map (cb : Clipboard) (k v : String)
    (h : (getSlot cb k).isSome) :
    setSlot cb k v = cb.map (fun p => if p.1 = k then (k, v) else p) := by
  unfold setSlot; rw [if_pos h]

theorem updAll_of_some (S : List (String × String)) (p : String × String)
    (v : String) (h : lastVal S p.1 = some v) : updAll S p = (p.1, v) := by
  unfold updAll; rw [h]

theorem updAll_of_none (S : List (String × String)) (p : String × String)
    (h : lastVal S p.1 = none) : updAll S p = p := by
  unfold updAll; rw [h]

theorem updAll_cons_comp (w : String × String) (S : List (String × String))
    (p : String × String) :
    updAll S (if p.1 = w.1 then (w.1, w.2) else p) = updAll (w :: S) p := by
  by_cases hp : p.1 = w.1
  · rw [if_pos hp]
    cases h2 : lastVal S w.1 with
    | some v =>
      have ha : updAll S (w.1, w.2) = (w.1, v) := updAll_of_some S (w.1, w.2) v h2
      have hb : lastVal (w :: S) p.1 = some v := by
        rw [hp]; exact lastVal_cons_of_some w S w.1 v h2
      rw [ha, updAll_of_some (w :: S) p v hb, hp]
    | none =>
      have ha : updAll S (w.1, w.2) = (w.1, w.2) := updAll_of_none S (w.1, w.2) h2
      have hb : lastVal (w :: S) p.1 = some w.2 := by
        rw [hp, lastVal_cons_of_none w S w.1 h2, if_pos rfl]
      rw [ha, updAll_of_some (w :: S) p w.2 hb, hp]
  · rw [if_neg hp]
    cases h2 : lastVal S p.1 with
    | some v =>
      have hb : lastVal (w :: S) p.1 = some v := lastVal_cons_of_some w S p.1 v h2
      rw [updAll_of_some S p v h2, updAll_of_some (w :: S) p v hb]
    | none =>
      have hn : ¬ w.1 = p.1 := fun h => hp h.symm
      have hb : lastVal (w :: S) p.1 = none := by
        rw [lastVal_cons_of_none w S p.1 h2, if_neg hn]
      rw [updAll_of_none S p h2, updAll_of_none (w :: S) p hb]

theorem applyWrites_eq_map (S : List (String × String)) (cb : Clipboard)
    (h : ∀ w ∈ S, (getSlot cb w.1).isSome) :
    applyWrites S cb = cb.map (updAll S) := by
  induction S generalizing cb with
  | nil =>
    have hid : updAll ([] : List (String × String)) = fun p => p := rfl
    rw [applyWrites_nil, hid, List.map_id']
  | cons w S ih =>
    rw [applyWrites_cons,
      setSlot_eq_map cb w.1 w.2 (h w (List.mem_cons_self w S))]
    have hpres : ∀ x ∈ S,
        (getSlot (cb.map (fun p => if p.1 = w.1 then (w.1, w.2) else p)) x.1).isSome := by
      intro x hx
      rw [getSlot_map_upd]
      by_cases hxk : x.1 = w.1
      · rw [if_pos hxk]
        rcases Option.isSome_iff_exists.mp (h w (List.mem_cons_self w S)) with ⟨u, hu⟩
        rw [hu]; rfl
      · rw [if_neg hxk]; exact h x (List.mem_cons_of_mem w hx)
    rw [ih _ hpres, List.map_map]
    exact List.map_congr_left (fun p _ => updAll_cons_comp w S p)

theorem updAll_fix (S : List (String × String)) (cb : Clipboard) :
    ∀ p ∈ applyWrites S cb, updAll S p = p := by
  induction S generalizing cb with
  | nil => intro p hp; exact updAll_of_none [] p rfl
  | cons w S ih =>
    intro p hp
    rw [applyWrites_cons] at hp
    cases h2 : lastVal S p.1 with
    | some v =>
      have hfix : updAll S p = p := ih (setSlot cb w.1 w.2) p hp
      have hv : (p.1, v) = p := by rw [← updAll_of_some S p v h2]; exact hfix
      have hb : lastVal (w :: S) p.1 = some v := lastVal_cons_of_some w S p.1 v h2
      rw [updAll_of_some (w :: S) p v hb]; exact hv
    | none =>
      by_cases hw : w.1 = p.1
      · have hnmem : ∀ x ∈ S, x.1 ≠ p.1 := lastVal_none_not_mem S p.1 h2
        have hpmem : p ∈ setSlot cb w.1 w.2 :=
          mem_applyWrites_no_key S (setSlot cb w.1 w.2) p.1 hnmem p hp rfl
        have hpe : p = (w.1, w.2) := mem_setSlot_key cb w.1 w.2 p hpmem hw.symm
        have hb : lastVal (w :: S) p.1 = some w.2 := by
          rw [lastVal_cons_of_none w S p.1 h2, if_pos hw]
        rw [updAll_of_some (w :: S) p w.2 hb, hpe]
      · have hb : lastVal (w :: S) p.1 = none := by
          rw [lastVal_cons_of_none w S p.1 h2, if_neg hw]
        exact updAll_of_none (w :: S) p hb

theorem applyWrites_idem (S : List (String × String)) (cb : Clipboard) :
    applyWrites S (applyWrites S cb) = applyWrites S cb := by
  rw [applyWrites_eq_map S (applyWrites S cb) (memkey_isSome_applyWrites S cb)]
  have hfix : ∀ p ∈ applyWrites S cb, updAll S p = p := updAll_fix S cb
  rw [List.map_congr_left hfix, List.map_id']

theorem gnq_fst (cat sub : String) (u : List Char) (cb : Clipboard)
    (ls : Option String) :
    (get_next_question cat sub u cb ls).1 = applyWrites (gnqWrites cat ls u) cb := by
  by_cases h : cat = "GENERAL_SYSTEMIC" ∧ (redirectTarget (lowerText u)).isSome
  · simp [get_next_question, h]
  · simp [get_next_question, h]

/-- C7: slot extraction is idempotent. Running `get_next_question` a second
time, on the same utterance and with the same last-asked slot, against the
clipboard produced by the first run returns exactly the first run's
clipboard and the same outcome (same redirect/no-redirect signal, and the
same selected slot, since question selection only reads the clipboard). -/
theorem c7_idempotent_reextraction (cat sub : String) (u : List Char)
    (ls : Option String) (cb : Clipboard) :
    get_next_question cat sub u (get_next_question cat sub u cb ls).1 ls
      = get_next_question cat sub u cb ls := by
  rw [gnq_fst cat sub u cb ls]
  by_cases h : cat = "GENERAL_SYSTEMIC" ∧ (redirectTarget (lowerText u)).isSome
  · simp only [get_next_question, if_pos h]
    rw [applyWrites_idem]
  · simp only [get_next_question, if_neg h]
    rw [applyWrites_idem]

/-- C6: the negation detector returns true exactly when one of the six
tokens no/not/dont/without/denies/never occurs as a whole word in the window
of (at most) 20 characters immediately preceding the match position; it is a
pure function of its two arguments, and when the position is within 20
characters of the start of the text the window is simply the shorter
available prefix (length `min index 20` for any in-text position), with no
failure. -/
theorem c6_negation_detector (text : List Char) (index : Nat) :
    (check_negation text index = true ↔
      ∃ tok ∈ negationTokens,
        ∃ j ≤ ((text.take index).drop (index - 20)).length,
          wholeWordAt tok ((text.take index).drop (index - 20)) j = true)
    ∧ (index ≤ text.length →
        ((text.take index).drop (index - 20)).length = min index 20) := by
  constructor
  · unfold check_negation containsWholeWord
    rw [List.any_eq_true]
    constructor
    · rintro ⟨j, hj, hany⟩
      rw [List.any_eq_true] at hany
      rcases hany with ⟨tok, htok, hw⟩
      exact ⟨tok, htok, j, Nat.lt_succ_iff.mp (List.mem_range.mp hj), hw⟩
    · rintro ⟨tok, htok, j, hj, hw⟩
      exact ⟨j, List.mem_range.mpr (Nat.lt_succ_iff.mpr hj),
        List.any_eq_true.mpr ⟨tok, htok, hw⟩⟩
  · intro hle
    rw [List.length_drop, List.length_take]
    omega

theorem c6_negation_detector_witness :
    check_negation (cs "a no pain") 8 = true
    ∧ (((cs "a no pain").take 8).drop (8 - 20)).length = min 8 20 := by
  refine ⟨?_, (c6_negation_detector (cs "a no pain") 8).2 (by decide)⟩
  exact (c6_negation_detector (cs "a no pain") 8).1.mpr
    ⟨cs "no", by decide, 2, by decide, by decide⟩

/-- C8: when a slot was asked last turn and the utterance contains a
whole-word negation cue, the context resolver writes the canned values
"mild symptoms" / "no known triggers" / "no pain or burning" / "no spread"
for the slots severity / triggers / sensation / spread respectively, and the
literal utterance verbatim for every other asked slot (such as swallowing);
when it contains no negation cue but an affirmation cue, it writes the
literal utterance under the asked slot. -/
theorem c8_context_resolution (slot : String) (u : List Char) (cb : Clipboard) :
    (containsWholeWord noTokens (lowerText u) = true →
      getSlot (applyWrites (contextWrites (some slot) u) cb) slot
        = some (if slot = "severity" then "mild symptoms"
            else if slot = "triggers" then "no known triggers"
            else if slot = "sensation" then "no pain or burning"
            else if slot = "spread" then "no spread"
            else String.mk u))
    ∧ (containsWholeWord noTokens (lowerText u) = false →
       containsWholeWord yesTokens (lowerText u) = true →
        getSlot (applyWrites (contextWrites (some slot) u) cb) slot
          = some (String.mk u)) := by
  constructor
  · intro hno
    by_cases h1 : slot = "severity"
    · subst h1; simp [contextWrites, hno, applyWrites, getSlot_setSlot]
    · by_cases h2 : slot = "triggers"
      · subst h2; simp [contextWrites, hno, applyWrites, getSlot_setSlot]
      · by_cases h3 : slot = "sensation"
        · subst h3; simp [contextWrites, hno, applyWrites, getSlot_setSlot]
        · by_cases h4 : slot = "spread"
          · subst h4; simp [contextWrites, hno, applyWrites, getSlot_setSlot]
          · simp [contextWrites, hno, h1, h2, h3, h4, applyWrites, getSlot_setSlot]
  · intro hno hyes
    simp [contextWrites, hno, hyes, applyWrites, getSlot_setSlot]

theorem c8_context_resolution_witness :
    getSlot (applyWrites (contextWrites (some "swallowing")
        (cs "no it does not hurt when i swallow")) []) "swallowing"
      = some "no it does not hurt when i swallow"
    ∧ getSlot (applyWrites (contextWrites (some "severity")
        (cs "no it does not hurt when i swallow")) []) "severity"
      = some "mild symptoms" := by
  constructor
  · have h := (c8_context_resolution "swallowing"
      (cs "no it does not hurt when i swallow") []).1 (by decide)
    simpa using h
  · have h := (c8_context_resolution "severity"
      (cs "no it does not hurt when i swallow") []).1 (by decide)
    simpa using h

theorem pickNext_gastro_done (sub : String) (cb : Clipboard) :
    pickNext "GASTROINTESTINAL" sub cb = QRes.done := rfl

/-- C10: the final question bank has no GASTROINTESTINAL entry (although the
first, later-discarded dictionary literal had one), so question selection
returns no question for category GASTROINTESTINAL whatever the sub-group and
clipboard, and every turn of a GASTROINTESTINAL session — in particular the
first — is declared complete without a follow-up question. -/
theorem c10_gastro_bank_missing (sub : String) (cb : Clipboard)
    (ls : Option String) (u : List Char) :
    lookupA SPECIALIST_QUESTIONS "GASTROINTESTINAL" = none
    ∧ (lookupA SPECIALIST_QUESTIONS_initial "GASTROINTESTINAL").isSome = true
    ∧ pickNext "GASTROINTESTINAL" sub cb = QRes.done
    ∧ isCompleted (predictTurn
        { category := "GASTROINTESTINAL", subgroup := sub, clipboard := cb,
          lastSlot := ls } u).2 = true := by
  refine ⟨rfl, rfl, pickNext_gastro_done sub cb, ?_⟩
  have hng : ∀ (sub1 : String) (cb1 : Clipboard),
      (get_next_question "GASTROINTESTINAL" sub1 u cb1 ls).2 = QRes.done := by
    intro sub1 cb1
    have hcond : ¬("GASTROINTESTINAL" = "GENERAL_SYSTEMIC"
        ∧ (redirectTarget (lowerText u)).isSome) := by
      intro h; exact absurd h.1 (by decide)
    simp [get_next_question, hcond, pickNext_gastro_done]
  simp [predictTurn, hng _ _, finishTurn, isCompleted, lockedOutcome]

set_option maxRecDepth 10000 in
/-- C1 (counterexample): for the spec's scenario utterance in a fresh
session, the clipboard does NOT hold `duration = "2 days"` (the regex stops
at the unit word, storing "2 day"), and the turn signals completion instead
of asking a next STOMACH-slot question. -/
theorem c1_scenario_counterexample :
    getSlot (predictTurn
        (freshSession (cs "I have severe stomach pain and vomiting for 2 days"))
        (cs "I have severe stomach pain and vomiting for 2 days")).1.clipboard
      "duration" ≠ some "2 days"
    ∧ isCompleted (predictTurn
        (freshSession (cs "I have severe stomach pain and vomiting for 2 days"))
        (cs "I have severe stomach pain and vomiting for 2 days")).2 = true := by
  decide

set_option maxRecDepth 10000 in
/-- C1 (amended): the scenario utterance is classified GASTROINTESTINAL and
routed to sub-group STOMACH, and the clipboard gains `duration = "2 day"`,
`severity = "severe"` and `vomiting = "vomit"`; the turn then signals
completion with no follow-up question, because the final question bank has
no GASTROINTESTINAL entry (and even the superseded gastro bank's STOMACH
slots — duration, vomiting, severity — are all already filled). -/
theorem c1_scenario_amended :
    (freshSession (cs "I have severe stomach pain and vomiting for 2 days")).category
      = "GASTROINTESTINAL"
    ∧ (predictTurn
        (freshSession (cs "I have severe stomach pain and vomiting for 2 days"))
        (cs "I have severe stomach pain and vomiting for 2 days")).1.subgroup
      = "STOMACH"
    ∧ getSlot (predictTurn
        (freshSession (cs "I have severe stomach pain and vomiting for 2 days"))
        (cs "I have severe stomach pain and vomiting for 2 days")).1.clipboard
        "duration" = some "2 day"
    ∧ getSlot (predictTurn
        (freshSession (cs "I have severe stomach pain and vomiting for 2 days"))
        (cs "I have severe stomach pain and vomiting for 2 days")).1.clipboard
        "severity" = some "severe"
    ∧ getSlot (predictTurn
        (freshSession (cs "I have severe stomach pain and vomiting for 2 days"))
        (cs "I have severe stomach pain and vomiting for 2 days")).1.clipboard
        "vomiting" = some "vomit"
    ∧ isCompleted (predictTurn
        (freshSession (cs "I have severe stomach pain and vomiting for 2 days"))
        (cs "I have severe stomach pain and vomiting for 2 days")).2 = true := by
  decide

set_option maxRecDepth 10000 in
/-- C2: on completion the controller does transition to locked/terminal and
hands the record store the generated summary, but the urgency field of the
created case is the constant "Normal" even when the session's clipboard
holds `URGENCY_OVERRIDE = CRITICAL` — the escalation is never forwarded. -/
theorem c2_urgency_not_handed :
    getSlot [("sputum", "blood"), ("URGENCY_OVERRIDE", "CRITICAL")]
      "URGENCY_OVERRIDE" = some "CRITICAL"
    ∧ (predictTurn
        { category := "GASTROINTESTINAL", subgroup := "STOMACH",
          clipboard := [("sputum", "blood"), ("URGENCY_OVERRIDE", "CRITICAL")],
          lastSlot := none } (cs "ok")).2
      = Outcome.completed (completionRecord
          [("sputum", "blood"), ("URGENCY_OVERRIDE", "CRITICAL")]
          "GASTROINTESTINAL")
    ∧ (completionRecord
          [("sputum", "blood"), ("URGENCY_OVERRIDE", "CRITICAL")]
          "GASTROINTESTINAL").urgency_score = "Normal"
    ∧ lockedOutcome (predictTurn
        { category := "GASTROINTESTINAL", subgroup := "STOMACH",
          clipboard := [("sputum", "blood"), ("URGENCY_OVERRIDE", "CRITICAL")],
          lastSlot := none } (cs "ok")).2 = true := by
  decide

set_option maxRecDepth 10000 in
/-- C3 (counterexample): a reachable GENERAL_SYSTEMIC session whose first
turn raises the heatstroke CRITICAL override is downgraded to HIGH by the
next turn's dengue-bleeding rule — URGENCY_OVERRIDE is not monotone across
turns. -/
theorem c3_counterexample :
    getSlot (predictTurn
        (freshSession (cs "my pee is dark and i feel confused"))
        (cs "my pee is dark and i feel confused")).1.clipboard
      "URGENCY_OVERRIDE" = some "CRITICAL"
    ∧ getSlot (predictTurn
        (predictTurn (freshSession (cs "my pee is dark and i feel confused"))
          (cs "my pee is dark and i feel confused")).1
        (cs "my gums bleed")).1.clipboard
      "URGENCY_OVERRIDE" = some "HIGH" := by
  decide

theorem reWrite_key (slot : String) (pats : List (List Char)) (t : List Char) :
    ∀ w ∈ reWrite slot pats t, w.1 = slot := by
  intro w hw
  unfold reWrite at hw
  cases h : findFirst pats t with
  | none => rw [h] at hw; simp at hw
  | some im =>
    obtain ⟨i, m⟩ := im
    rw [h] at hw
    simp at hw
    rw [hw]

theorem reWriteU_key (slot : String) (pats : List (List Char))
    (extra : List Char → Bool) (lvl : String) (t : List Char) :
    ∀ w ∈ reWriteU slot pats extra lvl t,
      w.1 = slot ∨ w = ("URGENCY_OVERRIDE", lvl) := by
  intro w hw
  unfold reWriteU at hw
  cases h : findFirst pats t with
  | none => rw [h] at hw; simp at hw
  | some im =>
    obtain ⟨i, m⟩ := im
    rw [h] at hw
    rcases List.mem_cons.mp hw with h1 | h2
    · left; rw [h1]
    · right
      by_cases hc : (extra t && !check_negation t i) = true
      · rw [if_pos hc] at h2; simpa using h2
      · rw [if_neg hc] at h2; simp at h2

theorem rule_key_bound (slot : String) (pats : List (List Char)) (t : List Char)
    (w : String × String) (L : List String) (h : w ∈ reWrite slot pats t)
    (hs : slot ∈ L) (hne : slot ≠ "URGENCY_OVERRIDE") :
    w.1 ∈ L ∧ (w.1 = "URGENCY_OVERRIDE" → w.2 = "HIGH" ∨ w.2 = "CRITICAL") := by
  have hk := reWrite_key slot pats t w h
  exact ⟨by rw [hk]; exact hs, fun hU => absurd (hk.symm.trans hU) hne⟩

theorem ruleU_key_bound (slot : String) (pats : List (List Char))
    (extra : List Char → Bool) (lvl : String) (t : List Char)
    (w : String × String) (L : List String)
    (h : w ∈ reWriteU slot pats extra lvl t) (hs : slot ∈ L)
    (hU : "URGENCY_OVERRIDE" ∈ L) (hne : slot ≠ "URGENCY_OVERRIDE")
    (hlvl : lvl = "HIGH" ∨ lvl = "CRITICAL") :
    w.1 ∈ L ∧ (w.1 = "URGENCY_OVERRIDE" → w.2 = "HIGH" ∨ w.2 = "CRITICAL") := by
  rcases reWriteU_key slot pats extra lvl t w h with h1 | h2
  · exact ⟨by rw [h1]; exact hs, fun hUU => absurd (h1.symm.trans hUU) hne⟩
  · exact ⟨by rw [h2]; exact hU, fun _ => by rw [h2]; exact hlvl⟩

theorem gastroWrites_bound (t : List Char) :
    ∀ w ∈ gastroWrites t,
      w.1 ∈ ["vomiting", "bowel", "bloating", "triggers", "stool_color",
        "hydration", "URGENCY_OVERRIDE"]
      ∧ (w.1 = "URGENCY_OVERRIDE" → w.2 = "HIGH" ∨ w.2 = "CRITICAL") := by
  intro w hw
  unfold gastroWrites at hw
  simp only [List.mem_append, or_assoc] at hw
  rcases hw with h | h | h | h | h | h
  · exact rule_key_bound _ _ _ _ _ h (by decide) (by decide)
  · exact rule_key_bound _ _ _ _ _ h (by decide) (by decide)
  · exact rule_key_bound _ _ _ _ _ h (by decide) (by decide)
  · exact rule_key_bound _ _ _ _ _ h (by decide) (by decide)
  · exact ruleU_key_bound _ _ _ _ _ _ _ h (by decide) (by decide) (by decide)
      (Or.inr rfl)
  · exact rule_key_bound _ _ _ _ _ h (by decide) (by decide)

theorem respWrites_bound (t : List Char) :
    ∀ w ∈ respWrites t,
      w.1 ∈ ["onset", "sounds", "type", "sputum", "systemic", "pain",
        "triggers", "congestion", "URGENCY_OVERRIDE"]
      ∧ (w.1 = "URGENCY_OVERRIDE" → w.2 = "HIGH" ∨ w.2 = "CRITICAL") := by
  intro w hw
  unfold respWrites at hw
  simp only [List.mem_append, or_assoc] at hw
  rcases hw with h | h | h | h | h | h | h | h
  · exact rule_key_bound _ _ _ _ _ h (by decide) (by decide)
  · exact rule_key_bound _ _ _ _ _ h (by decide) (by decide)
  · exact rule_key_bound _ _ _ _ _ h (by decide) (by decide)
  · exact ruleU_key_bound _ _ _ _ _ _ _ h (by decide) (by decide) (by decide)
      (Or.inr rfl)
  · exact rule_key_bound _ _ _ _ _ h (by decide) (by decide)
  · exact rule_key_bound _ _ _ _ _ h (by decide) (by decide)
  · exact rule_key_bound _ _ _ _ _ h (by decide) (by decide)
  · exact rule_key_bound _ _ _ _ _ h (by decide) (by decide)

theorem neuroWrites_bound (t : List Char) :
    ∀ w ∈ neuroWrites t,
      w.1 ∈ ["location", "associated_symptoms", "sensation", "triggers",
        "ears", "clarity", "disturbances", "onset", "event", "warning",
        "aftermath", "weakness", "cognition", "history"]
      ∧ (w.1 = "URGENCY_OVERRIDE" → w.2 = "HIGH" ∨ w.2 = "CRITICAL") := by
  intro w hw
  unfold neuroWrites at hw
  simp only [List.mem_append, or_assoc] at hw
  rcases hw with h | h | h | h | h | h | h | h | h | h | h | h | h | h
  all_goals exact rule_key_bound _ _ _ _ _ h (by decide) (by decide)

theorem orthoWrites_bound (t : List Char) :
    ∀ w ∈ orthoWrites t,
      w.1 ∈ ["radiation", "numbness", "sounds", "swelling", "mechanism",
        "function", "deformity", "usage", "URGENCY_OVERRIDE"]
      ∧ (w.1 = "URGENCY_OVERRIDE" → w.2 = "HIGH" ∨ w.2 = "CRITICAL") := by
  intro w hw
  unfold orthoWrites at hw
  simp only [List.mem_append, or_assoc] at hw
  rcases hw with h | h | h | h | h | h | h | h
  · exact rule_key_bound _ _ _ _ _ h (by decide) (by decide)
  · exact rule_key_bound _ _ _ _ _ h (by decide) (by decide)
  · exact rule_key_bound _ _ _ _ _ h (by decide) (by decide)
  · exact rule_key_bound _ _ _ _ _ h (by decide) (by decide)
  · exact rule_key_bound _ _ _ _ _ h (by decide) (by decide)
  · exact rule_key_bound _ _ _ _ _ h (by decide) (by decide)
  · exact ruleU_key_bound _ _ _ _ _ _ _ h (by decide) (by decide) (by decide)
      (Or.inr rfl)
  · exact rule_key_bound _ _ _ _ _ h (by decide) (by decide)

theorem dermaWrites_bound (t : List Char) :
    ∀ w ∈ dermaWrites t,
      w.1 ∈ ["triggers", "sensation", "spread", "depth", "bleeding",
        "infection_signs", "systemic", "location", "URGENCY_OVERRIDE"]
      ∧ (w.1 = "URGENCY_OVERRIDE" → w.2 = "HIGH" ∨ w.2 = "CRITICAL") := by
  intro w hw
  unfold dermaWrites at hw
  simp only [List.mem_append, or_assoc] at hw
  rcases hw with h | h | h | h | h | h | h | h
  · exact rule_key_bound _ _ _ _ _ h (by decide) (by decide)
  · exact rule_key_bound _ _ _ _ _ h (by decide) (by decide)
  · exact rule_key_bound _ _ _ _ _ h (by decide) (by decide)
  · exact rule_key_bound _ _ _ _ _ h (by decide) (by decide)
  · exact ruleU_key_bound _ _ _ _ _ _ _ h (by decide) (by decide) (by decide)
      (Or.inr rfl)
  · exact ruleU_key_bound _ _ _ _ _ _ _ h (by decide) (by decide) (by decide)
      (Or.inl rfl)
  · exact ruleU_key_bound _ _ _ _ _ _ _ h (by decide) (by decide) (by decide)
      (Or.inr rfl)
  · exact rule_key_bound _ _ _ _ _ h (by decide) (by decide)

theorem generalWrites_bound (t : List Char) :
    ∀ w ∈ generalWrites t,
      w.1 ∈ ["intake", "urine_output", "assessment", "fever_pattern",
        "pain_specifics", "bleeding_check", "respiratory_check",
        "weight_energy", "classic_signs", "timeline", "URGENCY_OVERRIDE"]
      ∧ (w.1 = "URGENCY_OVERRIDE" → w.2 = "HIGH" ∨ w.2 = "CRITICAL") := by
  intro w hw
  unfold generalWrites at hw
  simp only [List.mem_append, or_assoc] at hw
  rcases hw with h | h | h | h | h | h | h | h | h | h
  · exact rule_key_bound _ _ _ _ _ h (by decide) (by decide)
  · exact ruleU_key_bound _ _ _ _ _ _ _ h (by decide) (by decide) (by decide)
      (Or.inr rfl)
  · exact rule_key_bound _ _ _ _ _ h (by decide) (by decide)
  · exact rule_key_bound _ _ _ _ _ h (by decide) (by decide)
  · exact rule_key_bound _ _ _ _ _ h (by decide) (by decide)
  · exact ruleU_key_bound _ _ _ _ _ _ _ h (by decide) (by decide) (by decide)
      (Or.inl rfl)
  · exact rule_key_bound _ _ _ _ _ h (by decide) (by decide)
  · exact rule_key_bound _ _ _ _ _ h (by decide) (by decide)
  · exact rule_key_bound _ _ _ _ _ h (by decide) (by decide)
  · exact rule_key_bound _ _ _ _ _ h (by decide) (by decide)

theorem contextWrites_key (ls : Option String) (u : List Char) :
    ∀ w ∈ contextWrites ls u, ls = some w.1 := by
  intro w hw
  cases ls with
  | none => simp [contextWrites] at hw
  | some slot =>
    simp only [contextWrites] at hw
    split_ifs at hw with h1 h2 h3 h4 h5 h6
    all_goals simp_all

theorem durationWrite_key (t : List Char) :
    ∀ w ∈ durationWrite t, w.1 = "duration" := by
  intro w hw
  unfold durationWrite at hw
  cases h : scanFor durMatchAt t 0 with
  | none => rw [h] at hw; simp at hw
  | some im =>
    obtain ⟨i, m⟩ := im
    rw [h] at hw
    simp at hw
    rw [hw]

theorem severityWrite_key (t : List Char) :
    ∀ w ∈ severityWrite t, w.1 = "severity" := by
  intro w hw
  unfold severityWrite at hw
  cases h : scanFor sevMatchAt t 0 with
  | none => rw [h] at hw; simp at hw
  | some im =>
    obtain ⟨i, m⟩ := im
    rw [h] at hw
    simp at hw
    rw [hw]

theorem redirectStamp_key (o : Option String) :
    ∀ w ∈ redirectStamp o, w.1 = "category_redirect" := by
  intro w hw
  cases o with
  | none => simp [redirectStamp] at hw
  | some c => simp [redirectStamp] at hw; rw [hw]

theorem gastro_keys_sub : ∀ x ∈ ["vomiting", "bowel", "bloating", "triggers",
    "stool_color", "hydration", "URGENCY_OVERRIDE"], x ∈ allSlotKeys := by
  decide

theorem resp_keys_sub : ∀ x ∈ ["onset", "sounds", "type", "sputum", "systemic",
    "pain", "triggers", "congestion", "URGENCY_OVERRIDE"], x ∈ allSlotKeys := by
  decide

theorem neuro_keys_sub : ∀ x ∈ ["location", "associated_symptoms", "sensation",
    "triggers", "ears", "clarity", "disturbances", "onset", "event", "warning",
    "aftermath", "weakness", "cognition", "history"], x ∈ allSlotKeys := by
  decide

theorem ortho_keys_sub : ∀ x ∈ ["radiation", "numbness", "sounds", "swelling",
    "mechanism", "function", "deformity", "usage", "URGENCY_OVERRIDE"],
    x ∈ allSlotKeys := by
  decide

theorem derma_keys_sub : ∀ x ∈ ["triggers", "sensation", "spread", "depth",
    "bleeding", "infection_signs", "systemic", "location", "URGENCY_OVERRIDE"],
    x ∈ allSlotKeys := by
  decide

theorem general_keys_sub : ∀ x ∈ ["intake", "urine_output", "assessment",
    "fever_pattern", "pain_specifics", "bleeding_check", "respiratory_check",
    "weight_energy", "classic_signs", "timeline", "URGENCY_OVERRIDE"],
    x ∈ allSlotKeys := by
  decide

theorem catWrites_bound (cat : String) (t : List Char) :
    ∀ w ∈ catWrites cat t,
      w.1 ∈ allSlotKeys
      ∧ (w.1 = "URGENCY_OVERRIDE" → w.2 = "HIGH" ∨ w.2 = "CRITICAL") := by
  intro w hw
  unfold catWrites at hw
  split_ifs at hw
  · rcases gastroWrites_bound t w hw with ⟨hm, hi⟩
    exact ⟨gastro_keys_sub _ hm, hi⟩
  · rcases respWrites_bound t w hw with ⟨hm, hi⟩
    exact ⟨resp_keys_sub _ hm, hi⟩
  · rcases neuroWrites_bound t w hw with ⟨hm, hi⟩
    exact ⟨neuro_keys_sub _ hm, hi⟩
  · rcases orthoWrites_bound t w hw with ⟨hm, hi⟩
    exact ⟨ortho_keys_sub _ hm, hi⟩
  · rcases dermaWrites_bound t w hw with ⟨hm, hi⟩
    exact ⟨derma_keys_sub _ hm, hi⟩
  · rcases generalWrites_bound t w hw with ⟨hm, hi⟩
    exact ⟨general_keys_sub _ hm, hi⟩
  · simp at hw

theorem gnqWrites_bound (cat : String) (ls : Option String) (u : List Char) :
    ∀ w ∈ gnqWrites cat ls u,
      (w.1 ∈ allSlotKeys ∨ ls = some w.1)
      ∧ (w.1 = "URGENCY_OVERRIDE" →
          ls = some "URGENCY_OVERRIDE" ∨ w.2 = "HIGH" ∨ w.2 = "CRITICAL") := by
  intro w hw
  unfold gnqWrites at hw
  simp only [List.mem_append, or_assoc] at hw
  rcases hw with h | h | h | h | h
  · have hk := contextWrites_key ls u w h
    exact ⟨Or.inr hk, fun hU => Or.inl (by rw [hk, hU])⟩
  · have hk := durationWrite_key _ w h
    exact ⟨Or.inl (by rw [hk]; decide), fun hU =>
      absurd (hk.symm.trans hU) (by decide)⟩
  · have hk := severityWrite_key _ w h
    exact ⟨Or.inl (by rw [hk]; decide), fun hU =>
      absurd (hk.symm.trans hU) (by decide)⟩
  · rcases catWrites_bound cat _ w h with ⟨hm, hi⟩
    exact ⟨Or.inl hm, fun hU => Or.inr (hi hU)⟩
  · by_cases hc : cat = "GENERAL_SYSTEMIC"
    · rw [if_pos hc] at h
      have hk := redirectStamp_key _ w h
      exact ⟨Or.inl (by rw [hk]; decide), fun hU =>
        absurd (hk.symm.trans hU) (by decide)⟩
    · rw [if_neg hc] at h; simp at h

theorem urg_preserved_apply (S : List (String × String)) (cb : Clipboard)
    (lvl : String)
    (hok : ∀ w ∈ S, w.1 = "URGENCY_OVERRIDE" → w.2 = "HIGH" ∨ w.2 = "CRITICAL")
    (h : ∃ v, getSlot cb "URGENCY_OVERRIDE" = some v
        ∧ (v = lvl ∨ v = "HIGH" ∨ v = "CRITICAL")) :
    ∃ v, getSlot (applyWrites S cb) "URGENCY_OVERRIDE" = some v
      ∧ (v = lvl ∨ v = "HIGH" ∨ v = "CRITICAL") := by
  rcases h with ⟨v, hv, hd⟩
  rw [getSlot_applyWrites]
  cases hl : lastVal S "URGENCY_OVERRIDE" with
  | none => exact ⟨v, hv, hd⟩
  | some v2 =>
    have hmem := mem_of_lastVal S _ v2 hl
    have hval := hok ("URGENCY_OVERRIDE", v2) hmem rfl
    exact ⟨v2, rfl, Or.inr hval⟩

theorem urg_preserved_gnq (cat sub : String) (u : List Char) (cb : Clipboard)
    (ls : Option String) (lvl : String) (hls : ls ≠ some "URGENCY_OVERRIDE")
    (h : ∃ v, getSlot cb "URGENCY_OVERRIDE" = some v
        ∧ (v = lvl ∨ v = "HIGH" ∨ v = "CRITICAL")) :
    ∃ v, getSlot (get_next_question cat sub u cb ls).1 "URGENCY_OVERRIDE" = some v
      ∧ (v = lvl ∨ v = "HIGH" ∨ v = "CRITICAL") := by
  rw [gnq_fst]
  refine urg_preserved_apply _ _ _ (fun w hw hU => ?_) h
  rcases (gnqWrites_bound cat ls u w hw).2 hU with h1 | h2
  · exact absurd h1 hls
  · exact h2

theorem finishTurn_clipboard (s : Session) (r : QRes) :
    (finishTurn s r).1.clipboard = s.clipboard := by
  cases r <;> rfl

theorem finishTurn_category (s : Session) (r : QRes) :
    (finishTurn s r).1.category = s.category := by
  cases r <;> rfl

/-- C3 (amended): once URGENCY_OVERRIDE is set it is never cleared — after
any further turn (whose last-asked slot is a genuine slot, not the reserved
key) the clipboard still holds some escalation value — but it is last-write,
not monotone: the value after the turn is either the old one or the HIGH or
CRITICAL written by an urgency rule of that turn, so a later HIGH rule can
replace CRITICAL. -/
theorem c3_urgency_amended (s : Session) (u : List Char) (lvl : String)
    (hls : s.lastSlot ≠ some "URGENCY_OVERRIDE")
    (h : getSlot s.clipboard "URGENCY_OVERRIDE" = some lvl) :
    ∃ v, getSlot (predictTurn s u).1.clipboard "URGENCY_OVERRIDE" = some v
      ∧ (v = lvl ∨ v = "HIGH" ∨ v = "CRITICAL") := by
  have h0 : ∃ v, getSlot s.clipboard "URGENCY_OVERRIDE" = some v
      ∧ (v = lvl ∨ v = "HIGH" ∨ v = "CRITICAL") := ⟨lvl, h, Or.inl rfl⟩
  have hA : ∃ v, getSlot (stepA s u).2 "URGENCY_OVERRIDE" = some v
      ∧ (v = lvl ∨ v = "HIGH" ∨ v = "CRITICAL") := by
    simp only [stepA]
    split_ifs with h1 h2
    · exact h0
    · exact urg_preserved_gnq _ _ _ _ none lvl (by simp) h0
    · exact h0
  have hB := urg_preserved_gnq s.category (stepA s u).1 u (stepA s u).2
    s.lastSlot lvl hls hA
  unfold predictTurn
  split_ifs with hr
  · simp only [redirectTurn, finishTurn_clipboard]
    exact urg_preserved_gnq _ _ _ _ none lvl (by simp)
      (urg_preserved_gnq _ _ _ _ none lvl (by simp) hB)
  · simp only [finishTurn_clipboard]
    exact hB

theorem c3_urgency_amended_witness :
    ∃ v, getSlot (predictTurn
        { category := "GENERAL_SYSTEMIC", subgroup := "SUMMER_HYDRATION",
          clipboard := [("URGENCY_OVERRIDE", "CRITICAL")], lastSlot := none }
        (cs "hello")).1.clipboard "URGENCY_OVERRIDE" = some v
      ∧ (v = "CRITICAL" ∨ v = "HIGH" ∨ v = "CRITICAL") :=
  c3_urgency_amended
    { category := "GENERAL_SYSTEMIC", subgroup := "SUMMER_HYDRATION",
      clipboard := [("URGENCY_OVERRIDE", "CRITICAL")], lastSlot := none }
    (cs "hello") "CRITICAL" (by simp) rfl

theorem lastVal_append_right_none (S T : List (String × String)) (k : String)
    (h : lastVal T k = none) : lastVal (S ++ T) k = lastVal S k := by
  rw [lastVal_append, h]

theorem lastVal_append_right_some (S T : List (String × String)) (k v : String)
    (h : lastVal T k = some v) : lastVal (S ++ T) k = some v := by
  rw [lastVal_append, h]

theorem lastVal_reWrite_ne (slot : String) (pats : List (List Char))
    (t : List Char) (k : String) (h : slot ≠ k) :
    lastVal (reWrite slot pats t) k = none :=
  lastVal_eq_none _ _ (fun w hw => by rw [reWrite_key slot pats t w hw]; exact h)

theorem lastVal_severityWrite_ne (t : List Char) (k : String)
    (h : k ≠ "severity") : lastVal (severityWrite t) k = none :=
  lastVal_eq_none _ _ (fun w hw => by
    rw [severityWrite_key _ w hw]; exact fun he => h he.symm)

theorem lastVal_durationWrite_ne (t : List Char) (k : String)
    (h : k ≠ "duration") : lastVal (durationWrite t) k = none :=
  lastVal_eq_none _ _ (fun w hw => by
    rw [durationWrite_key _ w hw]; exact fun he => h he.symm)

theorem reWriteU_eq_some (slot : String) (pats : List (List Char))
    (extra : List Char → Bool) (lvl : String) (t : List Char) (i : Nat)
    (m : List Char) (hf : findFirst pats t = some (i, m)) :
    reWriteU slot pats extra lvl t
      = (slot, negMark t i ++ String.mk m) ::
          (if extra t && !check_negation t i then [("URGENCY_OVERRIDE", lvl)]
           else []) := by
  unfold reWriteU; rw [hf]

theorem reWriteU_eq_none (slot : String) (pats : List (List Char))
    (extra : List Char → Bool) (lvl : String) (t : List Char)
    (hf : findFirst pats t = none) :
    reWriteU slot pats extra lvl t = [] := by
  unfold reWriteU; rw [hf]

theorem ruleUrgFired_eq_some (pats : List (List Char)) (extra : List Char → Bool)
    (t : List Char) (i : Nat) (m : List Char)
    (hf : findFirst pats t = some (i, m)) :
    ruleUrgFired pats extra t = (extra t && !check_negation t i) := by
  unfold ruleUrgFired; rw [hf]

theorem ruleUrgFired_eq_none (pats : List (List Char)) (extra : List Char → Bool)
    (t : List Char) (hf : findFirst pats t = none) :
    ruleUrgFired pats extra t = false := by
  unfold ruleUrgFired; rw [hf]

theorem lastVal_reWriteU_U (slot : String) (pats : List (List Char))
    (extra : List Char → Bool) (lvl : String) (t : List Char)
    (hs : slot ≠ "URGENCY_OVERRIDE") :
    lastVal (reWriteU slot pats extra lvl t) "URGENCY_OVERRIDE"
      = if ruleUrgFired pats extra t then some lvl else none := by
  cases hf : findFirst pats t with
  | none =>
    rw [reWriteU_eq_none slot pats extra lvl t hf,
      ruleUrgFired_eq_none pats extra t hf]
    simp
  | some im =>
    obtain ⟨i, m⟩ := im
    rw [reWriteU_eq_some slot pats extra lvl t i m hf,
      ruleUrgFired_eq_some pats extra t i m hf]
    by_cases hcond : (extra t && !check_negation t i) = true
    · rw [if_pos hcond, if_pos hcond]
      exact lastVal_cons_of_some _ _ _ _
        (by rw [lastVal_cons_of_none _ [] _ rfl]; simp)
    · rw [if_neg hcond, if_neg hcond]
      rw [lastVal_cons_of_none _ [] _ rfl, if_neg hs]

theorem lastVal_respWrites_U (t : List Char) :
    lastVal (respWrites t) "URGENCY_OVERRIDE"
      = if hemoFlag t then some "CRITICAL" else none := by
  unfold respWrites
  rw [lastVal_append_right_none _ _ _
      (lastVal_reWrite_ne "congestion" _ t _ (by decide)),
    lastVal_append_right_none _ _ _
      (lastVal_reWrite_ne "triggers" _ t _ (by decide)),
    lastVal_append_right_none _ _ _
      (lastVal_reWrite_ne "pain" _ t _ (by decide)),
    lastVal_append_right_none _ _ _
      (lastVal_reWrite_ne "systemic" _ t _ (by decide))]
  have hU := lastVal_reWriteU_U "sputum" sputumPats (hasAnyPat bloodPats)
    "CRITICAL" t (by decide)
  by_cases hf : ruleUrgFired sputumPats (hasAnyPat bloodPats) t = true
  · rw [lastVal_append_right_some _ _ _ "CRITICAL" (by rw [hU, if_pos hf]),
      if_pos (show hemoFlag t = true from hf)]
  · have hf2 : ¬ (hemoFlag t = true) := hf
    rw [lastVal_append_right_none _ _ _ (by rw [hU, if_neg hf]),
      lastVal_append_right_none _ _ _
        (lastVal_reWrite_ne "type" _ t _ (by decide)),
      lastVal_append_right_none _ _ _
        (lastVal_reWrite_ne "sounds" _ t _ (by decide)),
      lastVal_reWrite_ne "onset" _ t _ (by decide), if_neg hf2]

/-- C4: within one DERMATOLOGICAL turn in which the gushing-bleeding
CRITICAL rule and the red-streak HIGH rule both fire and the bite-systemic
pattern is absent, the URGENCY_OVERRIDE stored at the end of the turn is
HIGH — the severity of the rule that executes last in cascade order, not the
maximum; the bleeding rule alone would have stored CRITICAL. -/
theorem c4_last_write_wins (u : List Char) (sub : String) (cb : Clipboard)
    (i : Nat) (m : List Char) (j : Nat) (m2 : List Char)
    (hb : findFirst dermaBleedPats (lowerText u) = some (i, m))
    (hbg : hasAnyPat dermaGushPats (lowerText u) = true)
    (hbn : check_negation (lowerText u) i = false)
    (hi : findFirst dermaInfPats (lowerText u) = some (j, m2))
    (his : hasAnyPat streakLinePats (lowerText u) = true)
    (hin : check_negation (lowerText u) j = false)
    (hsys : findFirst dermaSysPats (lowerText u) = none) :
    getSlot (get_next_question "DERMATOLOGICAL" sub u cb none).1
      "URGENCY_OVERRIDE" = some "HIGH"
    ∧ lastVal (reWriteU "bleeding" dermaBleedPats (hasAnyPat dermaGushPats)
        "CRITICAL" (lowerText u)) "URGENCY_OVERRIDE" = some "CRITICAL" := by
  constructor
  · rw [gnq_fst, getSlot_applyWrites]
    have hW : lastVal (gnqWrites "DERMATOLOGICAL" none u) "URGENCY_OVERRIDE"
        = some "HIGH" := by
      unfold gnqWrites
      rw [if_neg (show ¬ ("DERMATOLOGICAL" : String) = "GENERAL_SYSTEMIC"
          by decide), List.append_nil]
      have hcd : catWrites "DERMATOLOGICAL" (lowerText u)
          = dermaWrites (lowerText u) := by simp [catWrites]
      rw [hcd]
      have hinf : lastVal (reWriteU "infection_signs" dermaInfPats
          (hasAnyPat streakLinePats) "HIGH" (lowerText u)) "URGENCY_OVERRIDE"
          = some "HIGH" := by
        rw [lastVal_reWriteU_U _ _ _ _ _ (by decide)]
        have hfired : ruleUrgFired dermaInfPats (hasAnyPat streakLinePats)
            (lowerText u) = true := by
          rw [ruleUrgFired_eq_some dermaInfPats _ _ j m2 hi, his, hin]
          rfl
        rw [if_pos hfired]
      have hsysnil : reWriteU "systemic" dermaSysPats (fun _ => true) "CRITICAL"
          (lowerText u) = [] := reWriteU_eq_none _ _ _ _ _ hsys
      refine lastVal_append_right_some _ _ _ "HIGH" ?_
      unfold dermaWrites
      rw [lastVal_append_right_none _ _ _
          (lastVal_reWrite_ne "location" _ _ _ (by decide)),
        lastVal_append_right_none _ _ _ (by rw [hsysnil]; rfl),
        lastVal_append_right_some _ _ _ "HIGH" hinf]
    rw [hW]
  · rw [lastVal_reWriteU_U _ _ _ _ _ (by decide)]
    have hfired : ruleUrgFired dermaBleedPats (hasAnyPat dermaGushPats)
        (lowerText u) = true := by
      rw [ruleUrgFired_eq_some dermaBleedPats _ _ i m hb, hbg, hbn]
      rfl
    rw [if_pos hfired]

theorem c4_last_write_wins_witness :
    getSlot (get_next_question "DERMATOLOGICAL" "TRAUMA_BURN"
        (cs "blood is gushing and i see a red streak") [] none).1
      "URGENCY_OVERRIDE" = some "HIGH" :=
  (c4_last_write_wins (cs "blood is gushing and i see a red streak")
    "TRAUMA_BURN" [] 0 (cs "blood") 33 (cs "streak")
    (by decide) (by decide) (by decide) (by decide) (by decide) (by decide)
    (by decide)).1

set_option maxRecDepth 10000 in
/-- C5 (counterexample): in the utterance "coughing up clear mucus but no
blood" every blood/red/pink occurrence is negated within the window, yet the
respiratory extraction raises URGENCY_OVERRIDE to CRITICAL, because the
negation check is applied at the first sputum-pattern match ("clear"), not
at the blood mention. -/
theorem c5_hemoptysis_counterexample :
    allBloodNegated (cs "coughing up clear mucus but no blood") = true
    ∧ getSlot (get_next_question "RESPIRATORY" "COUGH"
        (cs "coughing up clear mucus but no blood") [] none).1
      "URGENCY_OVERRIDE" = some "CRITICAL" := by
  decide

/-- C5 (amended): the sputum rule raises the hemoptysis CRITICAL flag
exactly when the sputum pattern matches, a blood/red/pink token occurs
anywhere, and the negation window before the first sputum-pattern match is
clean (`hemoFlag`); the negation test is applied at that first match, not at
the blood mention, so a negated blood mention does not suppress the flag
when an earlier unnegated sputum token matched first. When the condition
fails, the turn leaves URGENCY_OVERRIDE unchanged. -/
theorem c5_hemoptysis_amended (u : List Char) (sub : String) (cb : Clipboard) :
    (hemoFlag (lowerText u) = true →
      getSlot (get_next_question "RESPIRATORY" sub u cb none).1
        "URGENCY_OVERRIDE" = some "CRITICAL")
    ∧ (hemoFlag (lowerText u) = false →
      getSlot (get_next_question "RESPIRATORY" sub u cb none).1
        "URGENCY_OVERRIDE" = getSlot cb "URGENCY_OVERRIDE") := by
  have hcr : catWrites "RESPIRATORY" (lowerText u) = respWrites (lowerText u) := by
    simp [catWrites]
  constructor
  · intro hf
    rw [gnq_fst, getSlot_applyWrites]
    have hW : lastVal (gnqWrites "RESPIRATORY" none u) "URGENCY_OVERRIDE"
        = some "CRITICAL" := by
      unfold gnqWrites
      rw [if_neg (show ¬ ("RESPIRATORY" : String) = "GENERAL_SYSTEMIC"
          by decide), List.append_nil, hcr,
        lastVal_append_right_some _ _ _ "CRITICAL"
          (by rw [lastVal_respWrites_U, if_pos hf])]
    rw [hW]
  · intro hf
    rw [gnq_fst, getSlot_applyWrites]
    have hW : lastVal (gnqWrites "RESPIRATORY" none u) "URGENCY_OVERRIDE"
        = none := by
      unfold gnqWrites
      rw [if_neg (show ¬ ("RESPIRATORY" : String) = "GENERAL_SYSTEMIC"
          by decide), List.append_nil, hcr,
        lastVal_append_right_none _ _ _
          (by rw [lastVal_respWrites_U, if_neg (by simp [hf])]),
        lastVal_append_right_none _ _ _
          (lastVal_severityWrite_ne _ _ (by decide)),
        lastVal_append_right_none _ _ _
          (lastVal_durationWrite_ne _ _ (by decide))]
      rfl
    rw [hW]

theorem c5_hemoptysis_amended_witness :
    getSlot (get_next_question "RESPIRATORY" "COUGH" (cs "no mucus today")
        [] none).1 "URGENCY_OVERRIDE" = none := by
  have h := (c5_hemoptysis_amended (cs "no mucus today") "COUGH" []).2 (by decide)
  simpa using h

theorem general_touch_sub : ∀ x ∈ ["intake", "urine_output", "assessment",
    "fever_pattern", "pain_specifics", "bleeding_check", "respiratory_check",
    "weight_energy", "classic_signs", "timeline", "URGENCY_OVERRIDE"],
    x ∈ redirectTouchableKeys := by
  decide

theorem gastro_touch_sub : ∀ x ∈ ["vomiting", "bowel", "bloating", "triggers",
    "stool_color", "hydration", "URGENCY_OVERRIDE"],
    x ∈ redirectTouchableKeys := by
  decide

theorem general_ne_duration : ∀ x ∈ ["intake", "urine_output", "assessment",
    "fever_pattern", "pain_specifics", "bleeding_check", "respiratory_check",
    "weight_energy", "classic_signs", "timeline", "URGENCY_OVERRIDE"],
    x ≠ "duration" := by
  decide

theorem gastro_ne_duration : ∀ x ∈ ["vomiting", "bowel", "bloating", "triggers",
    "stool_color", "hydration", "URGENCY_OVERRIDE"], x ≠ "duration" := by
  decide

theorem catWrites_general_eq (t : List Char) :
    catWrites "GENERAL_SYSTEMIC" t = generalWrites t := by
  simp [catWrites]

theorem catWrites_gastro_eq (t : List Char) :
    catWrites "GASTROINTESTINAL" t = gastroWrites t := by
  simp [catWrites]

theorem gnqWrites_touch (cat : String) (ls : Option String) (u : List Char)
    (hcat : cat = "GENERAL_SYSTEMIC" ∨ cat = "GASTROINTESTINAL") :
    ∀ w ∈ gnqWrites cat ls u,
      w.1 ∈ redirectTouchableKeys ∨ ls = some w.1 := by
  intro w hw
  unfold gnqWrites at hw
  simp only [List.mem_append, or_assoc] at hw
  rcases hw with h | h | h | h | h
  · exact Or.inr (contextWrites_key ls u w h)
  · exact Or.inl (by rw [durationWrite_key _ w h]; decide)
  · exact Or.inl (by rw [severityWrite_key _ w h]; decide)
  · rcases hcat with hc | hc <;> rw [hc] at h
    · rw [catWrites_general_eq] at h
      exact Or.inl (general_touch_sub _ (generalWrites_bound _ w h).1)
    · rw [catWrites_gastro_eq] at h
      exact Or.inl (gastro_touch_sub _ (gastroWrites_bound _ w h).1)
  · by_cases hcg : cat = "GENERAL_SYSTEMIC"
    · rw [if_pos hcg] at h
      exact Or.inl (by rw [redirectStamp_key _ w h]; decide)
    · rw [if_neg hcg] at h; simp at h

theorem gnqWrites_no_duration (cat : String) (ls : Option String)
    (u : List Char) (hnod : scanFor durMatchAt (lowerText u) 0 = none)
    (hls : ls ≠ some "duration")
    (hcat : cat = "GENERAL_SYSTEMIC" ∨ cat = "GASTROINTESTINAL") :
    ∀ w ∈ gnqWrites cat ls u, w.1 ≠ "duration" := by
  intro w hw
  unfold gnqWrites at hw
  simp only [List.mem_append, or_assoc] at hw
  rcases hw with h | h | h | h | h
  · have hk := contextWrites_key ls u w h
    intro he; rw [he] at hk; exact hls hk
  · have hdw : durationWrite (lowerText u) = [] := by
      unfold durationWrite; rw [hnod]
    rw [hdw] at h; simp at h
  · rw [severityWrite_key _ w h]; decide
  · rcases hcat with hc | hc <;> rw [hc] at h
    · rw [catWrites_general_eq] at h
      exact general_ne_duration _ (generalWrites_bound _ w h).1
    · rw [catWrites_gastro_eq] at h
      exact gastro_ne_duration _ (gastroWrites_bound _ w h).1
  · by_cases hcg : cat = "GENERAL_SYSTEMIC"
    · rw [if_pos hcg] at h; rw [redirectStamp_key _ w h]; decide
    · rw [if_neg hcg] at h; simp at h

theorem lastVal_redirectStamp (c : String) :
    lastVal (redirectStamp (some c)) "category_redirect" = some c := by
  rw [show redirectStamp (some c) = [("category_redirect", c)] from rfl,
    lastVal_cons_of_none _ [] _ rfl]
  simp

/-- C9: a GENERAL_SYSTEMIC-to-GASTROINTESTINAL redirect never discards
previously gathered facts: when the clipboard already holds
`duration = "3 days"`, the utterance contains no duration phrase and fires
the GI redirect, and the last-asked slot is not `duration`, the turn
switches the session to GASTROINTESTINAL, leaves the duration entry intact,
and leaves every clipboard key outside the slots re-extractable by this
turn (and distinct from the last-asked slot) unchanged. -/
theorem c9_redirect_preserves (sub : String) (cb : Clipboard)
    (ls : Option String) (u : List Char)
    (hdur : getSlot cb "duration" = some "3 days")
    (hnod : scanFor durMatchAt (lowerText u) 0 = none)
    (hgi : hasAnyPat giRedirectPats (lowerText u) = true)
    (hls : ls ≠ some "duration") :
    (predictTurn
        { category := "GENERAL_SYSTEMIC", subgroup := sub, clipboard := cb,
          lastSlot := ls }
        u).1.category = "GASTROINTESTINAL"
    ∧ getSlot (predictTurn
        { category := "GENERAL_SYSTEMIC", subgroup := sub, clipboard := cb,
          lastSlot := ls }
        u).1.clipboard "duration" = some "3 days"
    ∧ (∀ k, k ∉ redirectTouchableKeys → ls ≠ some k →
        getSlot (predictTurn
          { category := "GENERAL_SYSTEMIC", subgroup := sub, clipboard := cb,
            lastSlot := ls }
          u).1.clipboard k = getSlot cb k) := by
  have hrt : redirectTarget (lowerText u) = some "GASTROINTESTINAL" := by
    unfold redirectTarget; rw [if_pos hgi]
  have hm2 : ∀ (X : String) (cbA : Clipboard),
      (get_next_question "GENERAL_SYSTEMIC" X u cbA ls).2 = QRes.redirect := by
    intro X cbA; simp [get_next_question, hrt]
  have hstep : ∀ k, (∀ w ∈ gnqWrites "GENERAL_SYSTEMIC" none u, w.1 ≠ k) →
      getSlot (stepA
        { category := "GENERAL_SYSTEMIC", subgroup := sub, clipboard := cb,
          lastSlot := ls }
        u).2 k = getSlot cb k := by
    intro k hk
    simp only [stepA]
    split_ifs with h1 h2
    · rfl
    · rw [gnq_fst]; exact getSlot_applyWrites_frame _ _ _ hk
    · rfl
  have hread : ∀ cbA : Clipboard,
      getSlot (applyWrites (gnqWrites "GENERAL_SYSTEMIC" ls u) cbA)
        "category_redirect" = some "GASTROINTESTINAL" := by
    intro cbA
    rw [getSlot_applyWrites]
    have hlv : lastVal (gnqWrites "GENERAL_SYSTEMIC" ls u) "category_redirect"
        = some "GASTROINTESTINAL" := by
      unfold gnqWrites
      rw [if_pos rfl, hrt]
      exact lastVal_append_right_some _ _ _ _ (lastVal_redirectStamp _)
    rw [hlv]
  have hW3 : gnqWrites "GASTROINTESTINAL" none ([] : List Char) = [] := by
    decide
  have hW0dur : ∀ w ∈ gnqWrites "GENERAL_SYSTEMIC" none u, w.1 ≠ "duration" :=
    gnqWrites_no_duration _ _ _ hnod (by simp) (Or.inl rfl)
  have hW1dur : ∀ w ∈ gnqWrites "GENERAL_SYSTEMIC" ls u, w.1 ≠ "duration" :=
    gnqWrites_no_duration _ _ _ hnod hls (Or.inl rfl)
  have hW2dur : ∀ w ∈ gnqWrites "GASTROINTESTINAL" none u, w.1 ≠ "duration" :=
    gnqWrites_no_duration _ _ _ hnod (by simp) (Or.inr rfl)
  simp only [predictTurn]
  rw [if_pos (hm2 _ _)]
  simp only [redirectTurn, finishTurn_category, finishTurn_clipboard,
    gnq_fst]
  have hnc : (getSlot (applyWrites (gnqWrites "GENERAL_SYSTEMIC" ls u)
      (stepA
        { category := "GENERAL_SYSTEMIC", subgroup := sub, clipboard := cb,
          lastSlot := ls }
        u).2) "category_redirect").getD "" = "GASTROINTESTINAL" := by
    rw [hread]; rfl
  simp only [hnc]
  refine ⟨trivial, ?_, ?_⟩
  · rw [hW3, applyWrites_nil,
      getSlot_applyWrites_frame _ _ _ hW2dur,
      getSlot_applyWrites_frame _ _ _ hW1dur,
      hstep "duration" hW0dur, hdur]
  · intro k hk hlsk
    have hne1 : ∀ w ∈ gnqWrites "GENERAL_SYSTEMIC" ls u, w.1 ≠ k := by
      intro w hw he
      rcases gnqWrites_touch _ ls u (Or.inl rfl) w hw with hm | hm
      · rw [he] at hm; exact hk hm
      · rw [he] at hm; exact hlsk hm
    have hne0 : ∀ w ∈ gnqWrites "GENERAL_SYSTEMIC" none u, w.1 ≠ k := by
      intro w hw he
      rcases gnqWrites_touch _ none u (Or.inl rfl) w hw with hm | hm
      · rw [he] at hm; exact hk hm
      · simp at hm
    have hne2 : ∀ w ∈ gnqWrites "GASTROINTESTINAL" none u, w.1 ≠ k := by
      intro w hw he
      rcases gnqWrites_touch _ none u (Or.inr rfl) w hw with hm | hm
      · rw [he] at hm; exact hk hm
      · simp at hm
    rw [hW3, applyWrites_nil,
      getSlot_applyWrites_frame _ _ _ hne2,
      getSlot_applyWrites_frame _ _ _ hne1,
      hstep k hne0]

theorem c9_redirect_preserves_witness :
    (predictTurn
        { category := "GENERAL_SYSTEMIC", subgroup := "SUMMER_HYDRATION",
          clipboard := [("duration", "3 days"), ("intake", "sun")],
          lastSlot := none }
        (cs "i keep vomiting today")).1.category = "GASTROINTESTINAL"
    ∧ getSlot (predictTurn
        { category := "GENERAL_SYSTEMIC", subgroup := "SUMMER_HYDRATION",
          clipboard := [("duration", "3 days"), ("intake", "sun")],
          lastSlot := none }
        (cs "i keep vomiting today")).1.clipboard "duration" = some "3 days"
    ∧ getSlot (predictTurn
        { category := "GENERAL_SYSTEMIC", subgroup := "SUMMER_HYDRATION",
          clipboard := [("duration", "3 days"), ("intake", "sun")],
          lastSlot := none }
        (cs "i keep vomiting today")).1.clipboard "swallowing"
      = getSlot [("duration", "3 days"), ("intake", "sun")] "swallowing" := by
  have h := c9_redirect_preserves "SUMMER_HYDRATION"
    [("duration", "3 days"), ("intake", "sun")] none (cs "i keep vomiting today")
    (by decide) (by decide) (by decide) (by decide)
  exact ⟨h.1, h.2.1, h.2.2 "swallowing" (by decide) (by decide)⟩














